import Mathlib

/-!
Verification development for the Relife diagnostic-remediation scripts.

The Python sources operate on text: they parse compiler diagnostics,
classify them, rewrite files with regular-expression substitution rules,
and resolve merge-conflict regions.  We embed the text operations
shallowly: file contents are `List Char`, Python regular expressions are
translated rule by rule into a small executable matcher (`RItem`) with
Python `re` semantics (leftmost search, greedy/lazy quantifiers with
backtracking, capture groups, word boundaries, lookaheads), and
`re.sub`/`re.findall` are implemented on top of it.  All definitions are
fuel-based structural recursions so that concrete runs evaluate inside
the kernel.
-/

namespace Relife

/-- Text is modelled as a list of characters. -/
abbrev Str := List Char

/-- Coerce a Lean string literal to the text type. -/
def str (s : String) : Str := s.toList

/-- Python `str.isspace` characters relevant to `\s` and `str.strip()`:
space, tab, newline, carriage return, vertical tab, form feed. -/
def isPySpace (c : Char) : Bool :=
  c = ' ' || c = '\t' || c = '\n' || c = '\x0d' || c = '\x0b' || c = '\x0c'

/-- ASCII word character, Python `\w` for ASCII input: `[a-zA-Z0-9_]`. -/
def isWordCh (c : Char) : Bool :=
  ('a' ≤ c && c ≤ 'z') || ('A' ≤ c && c ≤ 'Z') || ('0' ≤ c && c ≤ '9') || c = '_'

/-- ASCII digit. -/
def isDigitCh (c : Char) : Bool := '0' ≤ c && c ≤ '9'

/-- `l` is a prefix of `s` (Boolean). -/
def startsWithL : Str → Str → Bool
  | [], _ => true
  | _ :: _, [] => false
  | a :: l, b :: s => a = b && startsWithL l s

/-- `l` is a suffix of `s` (Boolean), Python `str.endswith`. -/
def endsWithL (l s : Str) : Bool :=
  startsWithL l.reverse s.reverse

/-- `needle` occurs as a contiguous substring of `hay`, Python `x in s`. -/
def occursIn (needle : Str) : Str → Bool
  | [] => startsWithL needle []
  | c :: t => startsWithL needle (c :: t) || occursIn needle t

/-- Split at the first occurrence of `sep`: returns the part before and the
part after the separator.  Models lazy matching up to a literal marker. -/
def splitOnFirst (sep : Str) : Str → Option (Str × Str)
  | [] => if startsWithL sep [] then some ([], []) else none
  | c :: t =>
    if startsWithL sep (c :: t) then some ([], (c :: t).drop sep.length)
    else match splitOnFirst sep t with
      | some (a, b) => some (c :: a, b)
      | none => none

/-- Split text into lines at `'\n'`, Python `content.split('\n')`. -/
def splitLinesL : Str → List Str
  | [] => [[]]
  | c :: t =>
    if c = '\n' then [] :: splitLinesL t
    else match splitLinesL t with
      | [] => [[c]]
      | l :: ls => (c :: l) :: ls

/-- Join lines with `'\n'`. -/
def joinLinesL : List Str → Str
  | [] => []
  | [l] => l
  | l :: ls => l ++ '\n' :: joinLinesL ls

/-- Python `str.lstrip()`. -/
def lstripL : Str → Str
  | [] => []
  | c :: t => if isPySpace c then lstripL t else c :: t

/-- Python `str.rstrip()`. -/
def rstripL (s : Str) : Str := (lstripL s.reverse).reverse

/-- Python `str.strip()`. -/
def stripL (s : Str) : Str := rstripL (lstripL s)

/-- Python `str.lower()` restricted to ASCII case mapping. -/
def lowerL (s : Str) : Str := s.map Char.toLower

/-- Decimal digits to a natural number, Python `int(...)` on a digit run. -/
def digitsToNat (s : Str) : Nat :=
  s.foldl (fun acc c => acc * 10 + (c.toNat - '0'.toNat)) 0

/-! ### A small matcher with Python `re` semantics

Only the constructs the repository's patterns use are represented:
literal runs, character classes, greedy and lazy quantifiers over a
class, optional/alternative/starred sub-sequences, capture groups, word
boundaries, lookaheads, and `$`.  `matchesF` enumerates all ways a
pattern can match a prefix of the input, in Python's backtracking
preference order, so the head of the list is the match Python produces. -/

/-- Character classes appearing in the scripts' regular expressions. -/
inductive CharCls where
  /-- `\s` -/
  | ws
  /-- `\w` = `[a-zA-Z0-9_]` -/
  | word
  /-- `\d` -/
  | digit
  /-- `.` without `re.DOTALL`: any character except `'\n'` -/
  | dotNL
  /-- `.` under `re.DOTALL`: any character -/
  | anyCh
  /-- `[^c₁c₂…]` -/
  | noneOf (cs : Str)
  /-- a union of inclusive ranges, e.g. `[A-Za-z]`; singleton chars are `(c, c)` -/
  | inSet (rs : List (Char × Char))
deriving Repr

/-- Does character `c` belong to the class? -/
def clsMatch : CharCls → Char → Bool
  | .ws, c => isPySpace c
  | .word, c => isWordCh c
  | .digit, c => isDigitCh c
  | .dotNL, c => c ≠ '\n'
  | .anyCh, _ => true
  | .noneOf cs, c => !(cs.contains c)
  | .inSet rs, c => rs.any fun r => r.1 ≤ c && c ≤ r.2

/-- One item of a regular expression, in sequence order. -/
inductive RItem where
  /-- a literal character run -/
  | lit (l : Str)
  /-- a single character of a class -/
  | one (c : CharCls)
  /-- greedy `c*` -/
  | star (c : CharCls)
  /-- lazy `c*?` -/
  | starLazy (c : CharCls)
  /-- greedy `c+` -/
  | plus (c : CharCls)
  /-- `(?:…)?` greedy optional sub-sequence -/
  | opt (inner : List RItem)
  /-- `(a|b|…)` alternatives tried left to right (non-capturing) -/
  | alt (alts : List (List RItem))
  /-- capture group `(…)` with index `i` -/
  | group (i : Nat) (inner : List RItem)
  /-- lazy star over a sub-sequence, `(?:…)*?` -/
  | starSeqLazy (inner : List RItem)
  /-- `\b` -/
  | wb
  /-- `(?!…)` negative lookahead -/
  | negAhead (inner : List RItem)
  /-- `(?=…)` positive lookahead -/
  | posAhead (inner : List RItem)
  /-- `$` without `re.MULTILINE`: end of text or just before a final `'\n'` -/
  | eol
deriving Repr

/-- Capture list: group index paired with the captured text. -/
abbrev Caps := List (Nat × Str)

mutual

/-- Structural size of one pattern item (for the fuel bound). -/
def itemSize : RItem → Nat
  | .lit _ | .one _ | .star _ | .starLazy _ | .plus _ | .wb | .eol => 1
  | .opt inner => 1 + itemsSize inner
  | .alt alts => 1 + altsSize alts
  | .group _ inner => 1 + itemsSize inner
  | .starSeqLazy inner => 3 + itemsSize inner
  | .negAhead inner => 1 + itemsSize inner
  | .posAhead inner => 1 + itemsSize inner

/-- Structural size of a list of alternatives. -/
def altsSize : List (List RItem) → Nat
  | [] => 1
  | a :: r => itemsSize a + altsSize r

/-- Structural size of a pattern. -/
def itemsSize : List RItem → Nat
  | [] => 1
  | i :: r => itemSize i + itemsSize r

end

/-- Last character of `l`, falling back to `prev` when `l` is empty; used to
thread the character preceding the current position (for `\b`). -/
def lastChar (l : Str) (prev : Option Char) : Option Char :=
  match l.getLast? with
  | some c => some c
  | none => prev

/-- All ways `items` can match a prefix of `s`, as (consumed length,
captures), in Python's backtracking preference order.  `prev` is the
character just before the current position (`none` at the start of the
text).  `fuel` bounds the recursion depth; every call site supplies fuel
exceeding the depth bound `(|s|+1) * (itemsSize+1)`. -/
def matchesF : Nat → List RItem → Option Char → Str → List (Nat × Caps)
  | 0, _, _, _ => []
  | _ + 1, [], _, _ => [(0, [])]
  | fuel + 1, .lit l :: r, prev, s =>
    if startsWithL l s then
      (matchesF fuel r (lastChar l prev) (s.drop l.length)).map
        fun p => (l.length + p.1, p.2)
    else []
  | fuel + 1, .one c :: r, _prev, s =>
    match s with
    | [] => []
    | ch :: t =>
      if clsMatch c ch then
        (matchesF fuel r (some ch) t).map fun p => (p.1 + 1, p.2)
      else []
  | fuel + 1, .star c :: r, prev, s =>
    (match s with
     | ch :: t =>
       if clsMatch c ch then
         (matchesF fuel (.star c :: r) (some ch) t).map fun p => (p.1 + 1, p.2)
       else []
     | [] => []) ++ matchesF fuel r prev s
  | fuel + 1, .starLazy c :: r, prev, s =>
    matchesF fuel r prev s ++
    (match s with
     | ch :: t =>
       if clsMatch c ch then
         (matchesF fuel (.starLazy c :: r) (some ch) t).map fun p => (p.1 + 1, p.2)
       else []
     | [] => [])
  | fuel + 1, .plus c :: r, _prev, s =>
    match s with
    | [] => []
    | ch :: t =>
      if clsMatch c ch then
        (matchesF fuel (.star c :: r) (some ch) t).map fun p => (p.1 + 1, p.2)
      else []
  | fuel + 1, .opt inner :: r, prev, s =>
    ((matchesF fuel inner prev s).flatMap fun p =>
      (matchesF fuel r (lastChar (s.take p.1) prev) (s.drop p.1)).map
        fun q => (p.1 + q.1, p.2 ++ q.2)) ++
    matchesF fuel r prev s
  | fuel + 1, .alt alts :: r, prev, s =>
    alts.flatMap fun a =>
      (matchesF fuel a prev s).flatMap fun p =>
        (matchesF fuel r (lastChar (s.take p.1) prev) (s.drop p.1)).map
          fun q => (p.1 + q.1, p.2 ++ q.2)
  | fuel + 1, .group i inner :: r, prev, s =>
    (matchesF fuel inner prev s).flatMap fun p =>
      (matchesF fuel r (lastChar (s.take p.1) prev) (s.drop p.1)).map
        fun q => (p.1 + q.1, (i, s.take p.1) :: (p.2 ++ q.2))
  | fuel + 1, .starSeqLazy inner :: r, prev, s =>
    matchesF fuel r prev s ++
    ((matchesF fuel inner prev s).flatMap fun p =>
      if p.1 = 0 then []
      else
        (matchesF fuel (.starSeqLazy inner :: r) (lastChar (s.take p.1) prev)
            (s.drop p.1)).map
          fun q => (p.1 + q.1, p.2 ++ q.2))
  | fuel + 1, .wb :: r, prev, s =>
    let pw := match prev with | some c => isWordCh c | none => false
    let nw := match s with | c :: _ => isWordCh c | [] => false
    if pw ≠ nw then matchesF fuel r prev s else []
  | fuel + 1, .negAhead inner :: r, prev, s =>
    if (matchesF fuel inner prev s).isEmpty then matchesF fuel r prev s else []
  | fuel + 1, .posAhead inner :: r, prev, s =>
    if (matchesF fuel inner prev s).isEmpty then [] else matchesF fuel r prev s
  | fuel + 1, .eol :: r, prev, s =>
    if s = [] || s = ['\n'] then matchesF fuel r prev s else []

/-- Fuel that always suffices for `matchesF` on `items` against `s`
(recursion depth is bounded by the lexicographic measure on
(remaining input, remaining pattern size)). -/
def enoughFuel (items : List RItem) (s : Str) : Nat :=
  (s.length + 2) * (itemsSize items + 2)

/-- Python's preferred match of `items` at the current position:
the head of the preference-ordered match list. -/
def matchHere (items : List RItem) (prev : Option Char) (s : Str) :
    Option (Nat × Caps) :=
  (matchesF (enoughFuel items s) items prev s).head?

/-- `re.match`: anchored at the start of `s`. -/
def reMatch (items : List RItem) (s : Str) : Option (Nat × Caps) :=
  matchHere items none s

/-- Leftmost search, Python `re.search`: returns (offset, length, captures)
of the first match. -/
def searchPosAux : Nat → List RItem → Option Char → Str → Nat →
    Option (Nat × Nat × Caps)
  | 0, _, _, _, _ => none
  | fuel + 1, items, prev, s, pos =>
    match matchHere items prev s with
    | some (n, caps) => some (pos, n, caps)
    | none =>
      match s with
      | [] => none
      | c :: t => searchPosAux fuel items (some c) t (pos + 1)

/-- Python `re.search` without flags (scan every position). -/
def searchPos (items : List RItem) (s : Str) : Option (Nat × Nat × Caps) :=
  searchPosAux (s.length + 1) items none s 0

/-- Python `re.search` of a pattern that begins with `^` under
`re.MULTILINE`: only positions at the start of the text or just after a
`'\n'` are tried. -/
def searchMLAux : Nat → List RItem → Option Char → Str → Bool
  | 0, _, _, _ => false
  | fuel + 1, items, prev, s =>
    (if prev = none || prev = some '\n' then (matchHere items prev s).isSome
     else false) ||
    (match s with
     | [] => false
     | c :: t => searchMLAux fuel items (some c) t)

/-- Boolean multiline-anchored search. -/
def searchML (items : List RItem) (s : Str) : Bool :=
  searchMLAux (s.length + 1) items none s

/-! ### Replacement templates and `re.sub`

Python replacement strings are templates: `\1`…`\99` are group
references, escape sequences like `\n` are decoded, `\g` must be
followed by `<…>`, an unknown escape of an ASCII letter is an error, and
a backslash before a non-letter is kept verbatim.  `parseTemplate`
implements exactly these rules; static rule replacements are written as
already-parsed `Tmpl` values. -/

/-- One piece of a parsed replacement template. -/
inductive TmplItem where
  /-- literal text -/
  | litT (l : Str)
  /-- group reference `\i` -/
  | refT (i : Nat)
deriving Repr

/-- A parsed replacement template. -/
abbrev Tmpl := List TmplItem

/-- ASCII letter test (for Python's template escape rules). -/
def isAsciiLetter (c : Char) : Bool :=
  ('a' ≤ c && c ≤ 'z') || ('A' ≤ c && c ≤ 'Z')

/-- Parse a Python replacement string into a template.  Mirrors
`re`'s rules: group references `\1..\99` (two digits taken when
available), `\g<n>` named form, standard single-character escapes,
error on an unknown ASCII-letter escape or a trailing backslash,
backslash kept before any other character. -/
def parseTemplateF : Nat → Str → Except Unit Tmpl
  | 0, _ => .error ()
  | _ + 1, [] => .ok []
  | fuel + 1, b :: rest =>
    if b = '\\' then
    (match rest with
     | [] => .error ()
     | c :: rest2 =>
       if isDigitCh c && c ≠ '0' then
         match rest2 with
         | d :: rest3 =>
           if isDigitCh d then
             (parseTemplateF fuel rest3).map
               fun t => .refT (digitsToNat [c, d]) :: t
           else
             (parseTemplateF fuel rest2).map
               fun t => .refT (digitsToNat [c]) :: t
         | [] =>
           (parseTemplateF fuel rest2).map fun t => .refT (digitsToNat [c]) :: t
       else if c = 'g' then
         match rest2 with
         | '<' :: rest3 =>
           match splitOnFirst ['>'] rest3 with
           | some (name, rest4) =>
             if name ≠ [] && name.all isDigitCh then
               (parseTemplateF fuel rest4).map
                 fun t => .refT (digitsToNat name) :: t
             else .error ()
           | none => .error ()
         | _ => .error ()
       else if c = 'n' then
         (parseTemplateF fuel rest2).map fun t => .litT ['\n'] :: t
       else if c = 't' then
         (parseTemplateF fuel rest2).map fun t => .litT ['\t'] :: t
       else if c = 'r' then
         (parseTemplateF fuel rest2).map fun t => .litT ['\x0d'] :: t
       else if c = 'f' then
         (parseTemplateF fuel rest2).map fun t => .litT ['\x0c'] :: t
       else if c = 'v' then
         (parseTemplateF fuel rest2).map fun t => .litT ['\x0b'] :: t
       else if c = 'a' then
         (parseTemplateF fuel rest2).map fun t => .litT ['\x07'] :: t
       else if c = 'b' then
         (parseTemplateF fuel rest2).map fun t => .litT ['\x08'] :: t
       else if c = '0' then
         (parseTemplateF fuel rest2).map fun t => .litT ['\x00'] :: t
       else if c = '\\' then
         (parseTemplateF fuel rest2).map fun t => .litT ['\\'] :: t
       else if isAsciiLetter c then .error ()
       else (parseTemplateF fuel rest2).map fun t => .litT ['\\', c] :: t)
    else (parseTemplateF fuel rest).map fun t => .litT [b] :: t

/-- Parse a replacement string (fuel instantiated). -/
def parseTemplate (s : Str) : Except Unit Tmpl :=
  parseTemplateF (s.length + 1) s

/-- Expand a template against the captures of a match; a reference to a
group that did not participate is an error (as in Python). -/
def expandT (caps : Caps) : Tmpl → Except Unit Str
  | [] => .ok []
  | .litT l :: t => (expandT caps t).map fun r => l ++ r
  | .refT i :: t =>
    match caps.find? (fun p => p.1 = i) with
    | some p => (expandT caps t).map fun r => p.2 ++ r
    | none => .error ()

/-- Total expansion for the scripts' fixed rule templates, whose group
references always resolve. -/
def expandTD (caps : Caps) (t : Tmpl) : Str :=
  match expandT caps t with
  | .ok r => r
  | .error _ => []

/-- Core of `re.sub`: scan left to right, replace each non-overlapping
leftmost match using `repl` (which sees the matched text and captures),
copy unmatched characters.  A zero-length match consumes the following
character after substituting, as Python does. -/
def subScan (repl : Str → Caps → Str) (pat : List RItem) :
    Nat → Option Char → Str → Str
  | 0, _, s => s
  | fuel + 1, prev, s =>
    match matchHere pat prev s with
    | some (n, caps) =>
      if n = 0 then
        match s with
        | [] => repl [] caps
        | c :: t => repl [] caps ++ c :: subScan repl pat fuel (some c) t
      else
        repl (s.take n) caps ++
          subScan repl pat fuel (lastChar (s.take n) prev) (s.drop n)
    | none =>
      match s with
      | [] => []
      | c :: t => c :: subScan repl pat fuel (some c) t

/-- `re.sub(pattern, template, s)` with a fixed rule template. -/
def subAllT (pat : List RItem) (tmpl : Tmpl) (s : Str) : Str :=
  subScan (fun _ caps => expandTD caps tmpl) pat (s.length + 1) none s

/-- `re.sub(pattern, f, s)` with a function replacement. -/
def subAllFn (pat : List RItem) (f : Caps → Str) (s : Str) : Str :=
  subScan (fun _ caps => f caps) pat (s.length + 1) none s

/-- Number of non-overlapping matches, Python `len(re.findall(...))`. -/
def countScan (pat : List RItem) : Nat → Option Char → Str → Nat
  | 0, _, _ => 0
  | fuel + 1, prev, s =>
    match matchHere pat prev s with
    | some (n, _) =>
      if n = 0 then
        match s with
        | [] => 1
        | c :: t => 1 + countScan pat fuel (some c) t
      else 1 + countScan pat fuel (lastChar (s.take n) prev) (s.drop n)
    | none =>
      match s with
      | [] => 0
      | c :: t => countScan pat fuel (some c) t

/-- `len(re.findall(pattern, s))`. -/
def countMatches (pat : List RItem) (s : Str) : Nat :=
  countScan pat (s.length + 1) none s

/-- All matches with their captures, Python `re.findall` (non-overlapping,
left to right). -/
def findAllScan (pat : List RItem) : Nat → Option Char → Str →
    List (Str × Caps)
  | 0, _, _ => []
  | fuel + 1, prev, s =>
    match matchHere pat prev s with
    | some (n, caps) =>
      if n = 0 then
        match s with
        | [] => [([], caps)]
        | c :: t => ([], caps) :: findAllScan pat fuel (some c) t
      else
        (s.take n, caps) ::
          findAllScan pat fuel (lastChar (s.take n) prev) (s.drop n)
    | none =>
      match s with
      | [] => []
      | c :: t => findAllScan pat fuel (some c) t

/-- `re.findall(pattern, s)` returning matched text and captures. -/
def findAllCaps (pat : List RItem) (s : Str) : List (Str × Caps) :=
  findAllScan pat (s.length + 1) none s

/-- Literal replacement of every non-overlapping occurrence of `needle`
(`needle ≠ []`), the behaviour of `re.sub(re.escape(needle), r, s)` once
the template `r` is already expanded. -/
def replaceAllLit (needle repl : Str) : Nat → Str → Str
  | 0, s => s
  | _ + 1, [] => []
  | fuel + 1, c :: t =>
    if startsWithL needle (c :: t) && needle ≠ [] then
      repl ++ replaceAllLit needle repl fuel ((c :: t).drop needle.length)
    else c :: replaceAllLit needle repl fuel t

/-- `re.sub(re.escape(needle), expandedTemplate, s)`. -/
def replaceLit (needle repl s : Str) : Str :=
  replaceAllLit needle repl (s.length + 1) s

/-! ### `reduce-any-types.py`

`TYPE_REPLACEMENTS` and `additional_replacements` are translated entry
by entry from the source table: `\s*`/`\s+` become `star .ws`/`plus .ws`,
`[^,]*` and `[^)]*` become `star (.noneOf …)`, the capture
`([a-zA-Z_][a-zA-Z0-9_]*)` becomes `grpIdent`, and everything else is a
literal run.  Each rule carries the raw Python replacement string
(`rawRepl`), on which `process_file` performs its `'…' in replacement`
checks, alongside the parsed template. -/

/-- `[a-zA-Z_]` -/
def identStartCls : CharCls := .inSet [('a', 'z'), ('A', 'Z'), ('_', '_')]

/-- `[a-zA-Z0-9_]` -/
def identContCls : CharCls :=
  .inSet [('a', 'z'), ('A', 'Z'), ('0', '9'), ('_', '_')]

/-- The capture `([a-zA-Z_][a-zA-Z0-9_]*)` used by the parameter rules. -/
def grpIdent : RItem := .group 1 [.one identStartCls, .star identContCls]

/-- A rewrite rule: trigger pattern, parsed replacement template, and the
raw Python replacement string. -/
structure Rule where
  pat : List RItem
  tmpl : Tmpl
  rawRepl : Str

/-- `TYPE_REPLACEMENTS` from `reduce-any-types.py`, in table order. -/
def TYPE_REPLACEMENTS : List Rule := [
  -- (r'Record<string,\s*any\[\]>', 'MockDataStore')
  ⟨[.lit (str "Record<string,"), .star .ws, .lit (str "any[]>")],
   [.litT (str "MockDataStore")], str "MockDataStore"⟩,
  -- (r':\s*any\[\]', ': MockDataRecord[]')
  ⟨[.lit (str ":"), .star .ws, .lit (str "any[]")],
   [.litT (str ": MockDataRecord[]")], str ": MockDataRecord[]"⟩,
  -- (r'\.find\(\s*\(\s*item:\s*any\s*\)', '.find((item: MockDataRecord)')
  ⟨[.lit (str ".find("), .star .ws, .lit (str "("), .star .ws,
    .lit (str "item:"), .star .ws, .lit (str "any"), .star .ws,
    .lit (str ")")],
   [.litT (str ".find((item: MockDataRecord)")],
   str ".find((item: MockDataRecord)"⟩,
  -- (r'\.sort\(\s*\(\s*a:\s*any,\s*b:\s*any\s*\)',
  --  '.sort((a: MockDataRecord, b: MockDataRecord)')
  ⟨[.lit (str ".sort("), .star .ws, .lit (str "("), .star .ws,
    .lit (str "a:"), .star .ws, .lit (str "any,"), .star .ws,
    .lit (str "b:"), .star .ws, .lit (str "any"), .star .ws,
    .lit (str ")")],
   [.litT (str ".sort((a: MockDataRecord, b: MockDataRecord)")],
   str ".sort((a: MockDataRecord, b: MockDataRecord)"⟩,
  -- (r'user:\s*null\s+as\s+any', 'user: null')
  ⟨[.lit (str "user:"), .star .ws, .lit (str "null"), .plus .ws,
    .lit (str "as"), .plus .ws, .lit (str "any")],
   [.litT (str "user: null")], str "user: null"⟩,
  -- (r'session:\s*null\s+as\s+any', 'session: null')
  ⟨[.lit (str "session:"), .star .ws, .lit (str "null"), .plus .ws,
    .lit (str "as"), .plus .ws, .lit (str "any")],
   [.litT (str "session: null")], str "session: null"⟩,
  -- (r'\(\s*([a-zA-Z_][a-zA-Z0-9_]*)\s*:\s*any\s*\)', r'(\1: unknown)')
  ⟨[.lit (str "("), .star .ws, grpIdent, .star .ws, .lit (str ":"),
    .star .ws, .lit (str "any"), .star .ws, .lit (str ")")],
   [.litT (str "("), .refT 1, .litT (str ": unknown)")],
   str "(\\1: unknown)"⟩,
  -- (r'\(\s*([a-zA-Z_][a-zA-Z0-9_]*)\s*:\s*any,', r'(\1: unknown,')
  ⟨[.lit (str "("), .star .ws, grpIdent, .star .ws, .lit (str ":"),
    .star .ws, .lit (str "any,")],
   [.litT (str "("), .refT 1, .litT (str ": unknown,")],
   str "(\\1: unknown,"⟩,
  -- (r',\s*([a-zA-Z_][a-zA-Z0-9_]*)\s*:\s*any\s*\)', r', \1: unknown)')
  ⟨[.lit (str ","), .star .ws, grpIdent, .star .ws, .lit (str ":"),
    .star .ws, .lit (str "any"), .star .ws, .lit (str ")")],
   [.litT (str ", "), .refT 1, .litT (str ": unknown)")],
   str ", \\1: unknown)"⟩,
  -- (r',\s*([a-zA-Z_][a-zA-Z0-9_]*)\s*:\s*any,', r', \1: unknown,')
  ⟨[.lit (str ","), .star .ws, grpIdent, .star .ws, .lit (str ":"),
    .star .ws, .lit (str "any,")],
   [.litT (str ", "), .refT 1, .litT (str ": unknown,")],
   str ", \\1: unknown,"⟩,
  -- (r'\.fn\(\(\s*([a-zA-Z_][a-zA-Z0-9_]*)\s*:\s*any\s*\)', r'.fn((\1: unknown)')
  ⟨[.lit (str ".fn(("), .star .ws, grpIdent, .star .ws, .lit (str ":"),
    .star .ws, .lit (str "any"), .star .ws, .lit (str ")")],
   [.litT (str ".fn(("), .refT 1, .litT (str ": unknown)")],
   str ".fn((\\1: unknown)"⟩,
  -- (r'MockedFunction<\(\s*([a-zA-Z_][a-zA-Z0-9_]*)\s*:\s*any\s*\)',
  --  r'MockedFunction<(\1: unknown)')
  ⟨[.lit (str "MockedFunction<("), .star .ws, grpIdent, .star .ws,
    .lit (str ":"), .star .ws, .lit (str "any"), .star .ws, .lit (str ")")],
   [.litT (str "MockedFunction<("), .refT 1, .litT (str ": unknown)")],
   str "MockedFunction<(\\1: unknown)"⟩,
  -- (r'track:\s*[^,]*\(\s*[^,]*,\s*properties\?\s*:\s*any\s*\)', 'track: …')
  ⟨[.lit (str "track:"), .star .ws, .star (.noneOf [',']), .lit (str "("),
    .star .ws, .star (.noneOf [',']), .lit (str ","), .star .ws,
    .lit (str "properties?"), .star .ws, .lit (str ":"), .star .ws,
    .lit (str "any"), .star .ws, .lit (str ")")],
   [.litT (str "track: jest.MockedFunction<(event: string, properties?: AnalyticsProperties) => void>")],
   str "track: jest.MockedFunction<(event: string, properties?: AnalyticsProperties) => void>"⟩,
  -- (r'identify:\s*[^,]*\(\s*[^,]*,\s*traits\?\s*:\s*any\s*\)', 'identify: …')
  ⟨[.lit (str "identify:"), .star .ws, .star (.noneOf [',']), .lit (str "("),
    .star .ws, .star (.noneOf [',']), .lit (str ","), .star .ws,
    .lit (str "traits?"), .star .ws, .lit (str ":"), .star .ws,
    .lit (str "any"), .star .ws, .lit (str ")")],
   [.litT (str "identify: jest.MockedFunction<(userId: string, traits?: AnalyticsTraits) => void>")],
   str "identify: jest.MockedFunction<(userId: string, traits?: AnalyticsTraits) => void>"⟩,
  -- (r'page:\s*[^,]*\(\s*[^,]*,\s*properties\?\s*:\s*any\s*\)', 'page: …')
  ⟨[.lit (str "page:"), .star .ws, .star (.noneOf [',']), .lit (str "("),
    .star .ws, .star (.noneOf [',']), .lit (str ","), .star .ws,
    .lit (str "properties?"), .star .ws, .lit (str ":"), .star .ws,
    .lit (str "any"), .star .ws, .lit (str ")")],
   [.litT (str "page: jest.MockedFunction<(name: string, properties?: AnalyticsProperties) => void>")],
   str "page: jest.MockedFunction<(name: string, properties?: AnalyticsProperties) => void>"⟩,
  -- (r'createAlarm:\s*[^,]*\(\s*alarm:\s*any\s*\)', 'createAlarm: …')
  ⟨[.lit (str "createAlarm:"), .star .ws, .star (.noneOf [',']),
    .lit (str "("), .star .ws, .lit (str "alarm:"), .star .ws,
    .lit (str "any"), .star .ws, .lit (str ")")],
   [.litT (str "createAlarm: jest.MockedFunction<(alarm: AlarmData) => Promise<AlarmData>>")],
   str "createAlarm: jest.MockedFunction<(alarm: AlarmData) => Promise<AlarmData>>"⟩,
  -- (r'updateAlarm:\s*[^,]*\(\s*[^,]*,\s*updates:\s*any\s*\)', 'updateAlarm: …')
  ⟨[.lit (str "updateAlarm:"), .star .ws, .star (.noneOf [',']),
    .lit (str "("), .star .ws, .star (.noneOf [',']), .lit (str ","),
    .star .ws, .lit (str "updates:"), .star .ws, .lit (str "any"),
    .star .ws, .lit (str ")")],
   [.litT (str "updateAlarm: jest.MockedFunction<(id: string, updates: Partial<AlarmData>) => Promise<AlarmData>>")],
   str "updateAlarm: jest.MockedFunction<(id: string, updates: Partial<AlarmData>) => Promise<AlarmData>>"⟩,
  -- (r'getAlarms:\s*[^,]*\(\s*\)\s*=>\s*Promise<any\[\]>', 'getAlarms: …')
  ⟨[.lit (str "getAlarms:"), .star .ws, .star (.noneOf [',']),
    .lit (str "("), .star .ws, .lit (str ")"), .star .ws, .lit (str "=>"),
    .star .ws, .lit (str "Promise<any[]>")],
   [.litT (str "getAlarms: jest.MockedFunction<() => Promise<AlarmData[]>>")],
   str "getAlarms: jest.MockedFunction<() => Promise<AlarmData[]>>"⟩,
  -- (r'getAlarm:\s*[^,]*\(\s*[^,]*\)\s*=>\s*Promise<any\s*\|\s*null>', 'getAlarm: …')
  ⟨[.lit (str "getAlarm:"), .star .ws, .star (.noneOf [',']),
    .lit (str "("), .star .ws, .star (.noneOf [',']), .lit (str ")"),
    .star .ws, .lit (str "=>"), .star .ws, .lit (str "Promise<any"),
    .star .ws, .lit (str "|"), .star .ws, .lit (str "null>")],
   [.litT (str "getAlarm: jest.MockedFunction<(id: string) => Promise<AlarmData | null>>")],
   str "getAlarm: jest.MockedFunction<(id: string) => Promise<AlarmData | null>>"⟩,
  -- (r'createBattle:\s*[^,]*\(\s*_config:\s*any\s*\)', 'createBattle: …')
  ⟨[.lit (str "createBattle:"), .star .ws, .star (.noneOf [',']),
    .lit (str "("), .star .ws, .lit (str "_config:"), .star .ws,
    .lit (str "any"), .star .ws, .lit (str ")")],
   [.litT (str "createBattle: jest.MockedFunction<(config: BattleConfig) => Promise<Battle>>")],
   str "createBattle: jest.MockedFunction<(config: BattleConfig) => Promise<Battle>>"⟩,
  -- (r'getBattles:\s*[^,]*\(\s*[^,]*\)\s*=>\s*Promise<any\[\]>', 'getBattles: …')
  ⟨[.lit (str "getBattles:"), .star .ws, .star (.noneOf [',']),
    .lit (str "("), .star .ws, .star (.noneOf [',']), .lit (str ")"),
    .star .ws, .lit (str "=>"), .star .ws, .lit (str "Promise<any[]>")],
   [.litT (str "getBattles: jest.MockedFunction<(status?: string) => Promise<Battle[]>>")],
   str "getBattles: jest.MockedFunction<(status?: string) => Promise<Battle[]>>"⟩,
  -- (r'getBattle:\s*[^,]*\(\s*[^,]*\)\s*=>\s*Promise<any\s*\|\s*null>', 'getBattle: …')
  ⟨[.lit (str "getBattle:"), .star .ws, .star (.noneOf [',']),
    .lit (str "("), .star .ws, .star (.noneOf [',']), .lit (str ")"),
    .star .ws, .lit (str "=>"), .star .ws, .lit (str "Promise<any"),
    .star .ws, .lit (str "|"), .star .ws, .lit (str "null>")],
   [.litT (str "getBattle: jest.MockedFunction<(id: string) => Promise<Battle | null>>")],
   str "getBattle: jest.MockedFunction<(id: string) => Promise<Battle | null>>"⟩,
  -- (r'conditions:\s*any\[\]', 'conditions: RewardCondition[]')
  ⟨[.lit (str "conditions:"), .star .ws, .lit (str "any[]")],
   [.litT (str "conditions: RewardCondition[]")],
   str "conditions: RewardCondition[]"⟩,
  -- (r'createReward\([^)]*\):\s*Promise<any>', 'createReward(…): Promise<RewardData>')
  ⟨[.lit (str "createReward("), .star (.noneOf [')']), .lit (str "):"),
    .star .ws, .lit (str "Promise<any>")],
   [.litT (str "createReward(reward: Omit<RewardData, \"id\" | \"created_at\" | \"updated_at\">): Promise<RewardData>")],
   str "createReward(reward: Omit<RewardData, \"id\" | \"created_at\" | \"updated_at\">): Promise<RewardData>"⟩,
  -- (r'getUserRewards\([^)]*\):\s*Promise<any\[\]>', 'getUserRewards(…)')
  ⟨[.lit (str "getUserRewards("), .star (.noneOf [')']), .lit (str "):"),
    .star .ws, .lit (str "Promise<any[]>")],
   [.litT (str "getUserRewards(userId: string): Promise<UserReward[]>")],
   str "getUserRewards(userId: string): Promise<UserReward[]>"⟩,
  -- (r'checkAchievements\([^)]*\):\s*Promise<any\[\]>', 'checkAchievements(…)')
  ⟨[.lit (str "checkAchievements("), .star (.noneOf [')']), .lit (str "):"),
    .star .ws, .lit (str "Promise<any[]>")],
   [.litT (str "checkAchievements(userId: string, context: string, data: Record<string, unknown>): Promise<RewardData[]>")],
   str "checkAchievements(userId: string, context: string, data: Record<string, unknown>): Promise<RewardData[]>"⟩,
  -- (r'getPointHistory\([^)]*\):\s*Promise<any\[\]>', 'getPointHistory(…)')
  ⟨[.lit (str "getPointHistory("), .star (.noneOf [')']), .lit (str "):"),
    .star .ws, .lit (str "Promise<any[]>")],
   [.litT (str "getPointHistory(userId: string, limit?: number): Promise<PointTransaction[]>")],
   str "getPointHistory(userId: string, limit?: number): Promise<PointTransaction[]>"⟩,
  -- rule source: colon, ws, Array< brace, ws, method: string; args: any[]; with replacement using unknown[]
  ⟨[.lit (str ":"), .star .ws, .lit (str "Array<\x7b"), .star .ws,
    .lit (str "method:"), .star .ws, .lit (str "string;"), .star .ws,
    .lit (str "args:"), .star .ws, .lit (str "any[];")],
   [.litT (str ": Array<\x7b method: string; args: unknown[];")],
   str ": Array<\x7b method: string; args: unknown[];"⟩,
  -- (r'logCall\(\s*method:\s*string,\s*args:\s*any\[\]\)', 'logCall(…)')
  ⟨[.lit (str "logCall("), .star .ws, .lit (str "method:"), .star .ws,
    .lit (str "string,"), .star .ws, .lit (str "args:"), .star .ws,
    .lit (str "any[])")],
   [.litT (str "logCall(method: string, args: unknown[])")],
   str "logCall(method: string, args: unknown[])"⟩,
  -- rule source: getCallHistory(): Array< brace, ws, method: string; args: any[];
  --  replaced by the unknown[] version
  ⟨[.lit (str "getCallHistory():"), .star .ws, .lit (str "Array<\x7b"),
    .star .ws, .lit (str "method:"), .star .ws, .lit (str "string;"),
    .star .ws, .lit (str "args:"), .star .ws, .lit (str "any[];")],
   [.litT (str "getCallHistory(): Array<\x7b method: string; args: unknown[];")],
   str "getCallHistory(): Array<\x7b method: string; args: unknown[];"⟩]

/-- `additional_replacements` from `process_file`, in order. -/
def additional_replacements : List Rule := [
  -- (r'\(\s*([a-zA-Z_][a-zA-Z0-9_]*)\s*:\s*any\s*\)\s*=>', r'(\1: unknown) =>')
  ⟨[.lit (str "("), .star .ws, grpIdent, .star .ws, .lit (str ":"),
    .star .ws, .lit (str "any"), .star .ws, .lit (str ")"), .star .ws,
    .lit (str "=>")],
   [.litT (str "("), .refT 1, .litT (str ": unknown) =>")],
   str "(\\1: unknown) =>"⟩,
  -- (r'function\s*\(\s*([a-zA-Z_][a-zA-Z0-9_]*)\s*:\s*any\s*\)', r'function(\1: unknown)')
  ⟨[.lit (str "function"), .star .ws, .lit (str "("), .star .ws, grpIdent,
    .star .ws, .lit (str ":"), .star .ws, .lit (str "any"), .star .ws,
    .lit (str ")")],
   [.litT (str "function("), .refT 1, .litT (str ": unknown)")],
   str "function(\\1: unknown)"⟩,
  -- (r':\s*any\[\](?!\s*=)', ': unknown[]')
  ⟨[.lit (str ":"), .star .ws, .lit (str "any[]"),
    .negAhead [.star .ws, .lit (str "=")]],
   [.litT (str ": unknown[]")], str ": unknown[]"⟩,
  -- (r':\s*Record<string,\s*any>', ': Record<string, unknown>')
  ⟨[.lit (str ":"), .star .ws, .lit (str "Record<string,"), .star .ws,
    .lit (str "any>")],
   [.litT (str ": Record<string, unknown>")], str ": Record<string, unknown>"⟩,
  -- (r'\s+as\s+any\b', ' as unknown')
  ⟨[.plus .ws, .lit (str "as"), .plus .ws, .lit (str "any"), .wb],
   [.litT (str " as unknown")], str " as unknown"⟩]

/-- Apply one rule's `re.sub` to the text. -/
def applyRule (s : Str) (r : Rule) : Str := subAllT r.pat r.tmpl s

/-- Apply a list of rules sequentially (each `re.sub` sees the previous
output), as the loops in `process_file` do. -/
def applyRules (rules : List Rule) (s : Str) : Str :=
  rules.foldl applyRule s

/-- The full text transformation of one `process_file` pass:
`TYPE_REPLACEMENTS` then `additional_replacements`, in table order. -/
def applyReduceAny (s : Str) : Str :=
  applyRules (TYPE_REPLACEMENTS ++ additional_replacements) s

/-- Split at every occurrence of a character, Python `str.split(c)`. -/
def splitOnCharL (sep : Char) : Str → List Str
  | [] => [[]]
  | c :: t =>
    if c = sep then [] :: splitOnCharL sep t
    else match splitOnCharL sep t with
      | [] => [[c]]
      | l :: ls => (c :: l) :: ls

/-- Lexicographic (code-point) strict order on text, Python `<`. -/
def strLt : Str → Str → Bool
  | [], [] => false
  | [], _ :: _ => true
  | _ :: _, [] => false
  | a :: l, b :: r => if a = b then strLt l r else decide (a < b)

/-- Insert into an ascending list. -/
def insertSorted (x : Str) : List Str → List Str
  | [] => [x]
  | a :: r => if strLt x a then x :: a :: r else a :: insertSorted x r

/-- Python `sorted` on a list of strings. -/
def sortStrs (l : List Str) : List Str := l.foldr insertSorted []

/-- Keep the first occurrence of each string (models building a `set`). -/
def dedupAux : List Str → List Str → List Str
  | [], _ => []
  | a :: r, seen =>
    if seen.contains a then dedupAux r seen else a :: dedupAux r (a :: seen)

/-- Deduplicate a list of strings. -/
def dedupStrs (l : List Str) : List Str := dedupAux l []

/-- `', '.join(l)`. -/
def joinCommaSpace : List Str → Str
  | [] => []
  | [a] => a
  | a :: r => a ++ str ", " ++ joinCommaSpace r

/-- Python `list.insert(pos, x)` (clamps `pos` to the length). -/
def insertAtPy (pos : Nat) (x : Str) (l : List Str) : List Str :=
  l.take pos ++ [x] ++ l.drop pos

/-- The import statement `add_imports_to_file` builds. -/
def importStatement (imports : List Str) : Str :=
  str "import \x7b\n  " ++ joinCommaSpace (sortStrs imports) ++
    str "\n\x7d from '../../types/common-types';\n"

/-- The regex `import\s*\{([^}]+)\}\s*from\s*['"]\.\./\.\./types/common-types['"];?`. -/
def importPat : List RItem :=
  [.lit (str "import"), .star .ws, .lit (str "\x7b"),
   .group 1 [.plus (.noneOf ['}'])], .lit (str "\x7d"), .star .ws,
   .lit (str "from"), .star .ws,
   .one (.inSet [('\'', '\''), ('"', '"')]),
   .lit (str "../../types/common-types"),
   .one (.inSet [('\'', '\''), ('"', '"')]),
   .opt [.lit [';']]]

/-- The insert-position scan of `add_imports_to_file`: walk the lines with
the `in_comment` flag, remembering the position after leading `//`
comments, breaking after a closing `*/` of a `/**` block or at the first
ordinary nonblank line. -/
def scanInsertPos : List Str → Nat → Bool → Nat → Nat
  | [], _, _, pos => pos
  | line :: rest, i, inComment, pos =>
    let st := stripL line
    if startsWithL (str "/**") st then
      scanInsertPos rest (i + 1) true pos
    else if endsWithL (str "*/") st && inComment then i + 1
    else if startsWithL (str "//") st && !inComment then
      scanInsertPos rest (i + 1) inComment (i + 1)
    else if st ≠ [] && !inComment then pos
    else scanInsertPos rest (i + 1) inComment pos

/-- `add_imports_to_file`, as the content the file holds afterwards: update
an existing `common-types` import if the regex finds one, otherwise
insert a fresh import statement after the leading comment block.  An
internal exception (a malformed replacement template) is caught by the
function's own `try`/`except`, leaving the file unchanged. -/
def add_imports_to_file (content : Str) (importsNeeded : List Str) : Str :=
  if occursIn (str "from '../../types/common-types'") content then
    match searchPos importPat content with
    | some (_, _, caps) =>
      let grp := match caps.find? (fun p => p.1 = 1) with
        | some p => p.2
        | none => []
      let existing := (splitOnCharL ',' grp).map stripL
      let allImports := sortStrs (dedupStrs (existing ++ importsNeeded))
      let newImport := str "import \x7b\n  " ++ joinCommaSpace allImports ++
        str "\n\x7d from '../../types/common-types';"
      match parseTemplate newImport with
      | .ok tmpl => subAllT importPat tmpl content
      | .error _ => content
    | none => importStatement importsNeeded ++ content
  else
    let lines := splitLinesL content
    let pos := scanInsertPos lines 0 false 0
    joinLinesL (insertAtPy pos (importStatement importsNeeded) lines)

/-- The `imports_needed` bookkeeping of `process_file`: substring checks
against the raw replacement string, in source order. -/
def updateImports (imps : List Str) (rawRepl : Str) : List Str :=
  let add := fun (l : List Str) (xs : List Str) =>
    xs.foldl (fun acc x => if acc.contains x then acc else acc ++ [x]) l
  let l1 := if occursIn (str "MockDataStore") rawRepl ||
      occursIn (str "MockDataRecord") rawRepl then
    add imps [str "MockDataStore", str "MockDataRecord"] else imps
  let l2 := if occursIn (str "AnalyticsProperties") rawRepl ||
      occursIn (str "AnalyticsTraits") rawRepl then
    add l1 [str "AnalyticsProperties", str "AnalyticsTraits"] else l1
  let l3 := if occursIn (str "AlarmData") rawRepl then
    add l2 [str "AlarmData"] else l2
  let l4 := if occursIn (str "BattleConfig") rawRepl ||
      occursIn (str "Battle") rawRepl then
    add l3 [str "BattleConfig", str "Battle"] else l3
  if occursIn (str "RewardCondition") rawRepl ||
      occursIn (str "RewardData") rawRepl then
    add l4 [str "RewardCondition", str "RewardData", str "UserReward",
      str "PointTransaction"] else l4

/-- One step of the first `TYPE_REPLACEMENTS` loop of `process_file`:
count matches, substitute when any, track needed imports. -/
def pass1Step (st : Str × Nat × List Str) (r : Rule) : Str × Nat × List Str :=
  let k := countMatches r.pat st.1
  if k ≠ 0 then (applyRule st.1 r, st.2.1 + k, updateImports st.2.2 r.rawRepl)
  else st

/-- One step of the `additional_replacements` loop (no import tracking). -/
def pass2Step (st : Str × Nat) (r : Rule) : Str × Nat :=
  let k := countMatches r.pat st.1
  if k ≠ 0 then (applyRule st.1 r, st.2 + k) else st

/-- Result of `process_file`: the file's final content, whether the write
branch ran, and the reported change count. -/
structure ProcessResult where
  finalContent : Str
  wrote : Bool
  changes : Nat
deriving Repr, DecidableEq

/-- The two counting loops of `process_file`: transformed text, change
count, and the imports found to be needed. -/
def reduceAnyPasses (content : Str) : Str × Nat × List Str :=
  let p1 := TYPE_REPLACEMENTS.foldl pass1Step (content, 0, [])
  let p2 := additional_replacements.foldl pass2Step (p1.1, p1.2.1)
  (p2.1, p2.2, p1.2.2)

/-- `process_file` from `reduce-any-types.py` on a file holding `content`:
apply both rule loops with counting; if the text changed, optionally add
imports to the (still unmodified) file on disk, re-read it, re-apply every
rule, and write; otherwise report zero changes and do not write. -/
def process_file (content : Str) : ProcessResult :=
  let p := reduceAnyPasses content
  if p.1 ≠ content then
    let base := if p.2.2 ≠ [] then add_imports_to_file content p.2.2 else p.1
    ⟨applyReduceAny base, true, p.2.1⟩
  else ⟨content, false, 0⟩

/-! ### `classify_ts_errors.py`: parser and classifier -/

/-- A parsed diagnostic record. -/
structure Diag where
  file : Str
  line : Nat
  column : Nat
  code : Str
  message : Str
deriving Repr, DecidableEq

/-- The header regex of `parse_tsc_output`:
`^(.*?)\((\d+),(\d+)\):\s*error\s+(TS\d+):\s*(.*?)$`. -/
def tscHeaderPat : List RItem :=
  [.group 1 [.starLazy .dotNL], .lit (str "("), .group 2 [.plus .digit],
   .lit (str ","), .group 3 [.plus .digit], .lit (str "):"), .star .ws,
   .lit (str "error"), .plus .ws, .group 4 [.lit (str "TS"), .plus .digit],
   .lit (str ":"), .star .ws, .group 5 [.starLazy .dotNL], .eol]

/-- Look up a capture group. -/
def capGet (caps : Caps) (i : Nat) : Str :=
  match caps.find? (fun p => p.1 = i) with
  | some p => p.2
  | none => []

/-- The per-line step of `parse_tsc_output`: `re.match` the header against
the stripped line, building a record on success. -/
def parseLine (line : Str) : Option Diag :=
  match reMatch tscHeaderPat (stripL line) with
  | some (_, caps) =>
    some ⟨capGet caps 1, digitsToNat (capGet caps 2),
      digitsToNat (capGet caps 3), capGet caps 4, stripL (capGet caps 5)⟩
  | none => none

/-- `parse_tsc_output`: when the report file is missing the function prints
an error and returns the empty collection `{}` (iterated downstream as
zero records); otherwise it splits the content into lines and keeps every
line whose stripped form matches the header. -/
def parse_tsc_output : Option Str → List Diag
  | none => []
  | some content => (splitLinesL content).filterMap parseLine

/-- The bucket a diagnostic is filed into by `classify_errors`. -/
inductive BucketId where
  | component_props | user_subscription | persona_analytics
  | cloudflare_runtime | react_jsx_missing | implicit_any
  | hoisting_issues | other
deriving Repr, DecidableEq

/-- The `if`/`elif` chain of `classify_errors`, in source order, on
`file = error['file']`, `code = error['code']`,
`message = error['message'].lower()`. -/
def classifyOne (e : Diag) : BucketId :=
  let file := e.file
  let code := e.code
  let message := lowerL e.message
  if occursIn (str "property") message &&
      occursIn (str "does not exist on type") message &&
      (occursIn (str "intrinsicattributes") message ||
       occursIn (str "props") message) then
    .component_props
  else if occursIn (str "subscription") message ||
      occursIn (str "subscriptiontier") message ||
      (endsWithL (str "user.ts") file || endsWithL (str "subscription.ts") file) ||
      occursIn (str "user") (lowerL file) then
    .user_subscription
  else if occursIn (str "persona") message ||
      occursIn (str "personadetectiondata") message ||
      occursIn (str "personaanalytics") (lowerL file) then
    .persona_analytics
  else if occursIn (str "d1database") message ||
      occursIn (str "kvnamespace") message ||
      occursIn (str "durableobjectnamespace") message ||
      occursIn (str "cloudflare") message ||
      endsWithL (str "cloudflare-functions.ts") file then
    .cloudflare_runtime
  else if (code = str "TS2307" &&
      (occursIn (str "react") message || occursIn (str "jsx-runtime") message)) ||
      ((code = str "TS7026" || code = str "TS2875") &&
       occursIn (str "jsx") message) then
    .react_jsx_missing
  else if code = str "TS7006" || code = str "TS7031" ||
      code = str "TS7053" || code = str "TS7015" then
    .implicit_any
  else if (code = str "TS2448" || code = str "TS2454") &&
      occursIn (str "used before") message then
    .hoisting_issues
  else .other

/-- The eight buckets built by `classify_errors`. -/
structure Buckets where
  component_props : List Diag
  user_subscription : List Diag
  persona_analytics : List Diag
  cloudflare_runtime : List Diag
  react_jsx_missing : List Diag
  implicit_any : List Diag
  hoisting_issues : List Diag
  other : List Diag
deriving Repr, DecidableEq

/-- The empty bucket table. -/
def emptyBuckets : Buckets := ⟨[], [], [], [], [], [], [], []⟩

/-- Append one diagnostic to its bucket. -/
def insertBucket (b : Buckets) (e : Diag) : Buckets :=
  match classifyOne e with
  | .component_props => { b with component_props := b.component_props ++ [e] }
  | .user_subscription =>
    { b with user_subscription := b.user_subscription ++ [e] }
  | .persona_analytics =>
    { b with persona_analytics := b.persona_analytics ++ [e] }
  | .cloudflare_runtime =>
    { b with cloudflare_runtime := b.cloudflare_runtime ++ [e] }
  | .react_jsx_missing =>
    { b with react_jsx_missing := b.react_jsx_missing ++ [e] }
  | .implicit_any => { b with implicit_any := b.implicit_any ++ [e] }
  | .hoisting_issues => { b with hoisting_issues := b.hoisting_issues ++ [e] }
  | .other => { b with other := b.other ++ [e] }

/-- `classify_errors`: file each diagnostic, in order, into exactly one
bucket of the fixed table. -/
def classify_errors (errors : List Diag) : Buckets :=
  errors.foldl insertBucket emptyBuckets

/-- Sum of the per-bucket sizes. -/
def sumBuckets (b : Buckets) : Nat :=
  b.component_props.length + b.user_subscription.length +
  b.persona_analytics.length + b.cloudflare_runtime.length +
  b.react_jsx_missing.length + b.implicit_any.length +
  b.hoisting_issues.length + b.other.length

/-- Observable outcome of running `classify_ts_errors.main`. -/
structure ClassifyRun where
  exitCode : Nat
  buckets : Buckets
  reportWritten : Bool
deriving Repr, DecidableEq

/-- `classify_ts_errors.main`: parse (a missing report yields the empty
collection after printing an error — the script never exits non-zero),
classify, write the JSON buckets and the markdown report. -/
def classify_main (input : Option Str) : ClassifyRun :=
  let errors := parse_tsc_output input
  ⟨0, classify_errors errors, true⟩

/-! ### `extract_top_errors.py`: parser and `main` entry -/

/-- The ANSI escape stripper: `\x1B` followed by either one character in
`[@-Z\\-_]`, or `[` then `[0-?]*` then zero or more of the range from
space to slash, then one character in `[@-~]`. -/
def ansiPat : List RItem :=
  [.lit ['\x1b'],
   .alt [[.one (.inSet [('@', 'Z'), ('\\', '_')])],
         [.lit ['['], .star (.inSet [('0', '?')]),
          .star (.inSet [(' ', '/')]), .one (.inSet [('@', '~')])]]]

/-- The error regex `([^:]+):(\d+):(\d+) - error (TS\d+): (.+?)(?=\n|$)`
under `re.MULTILINE | re.DOTALL`; the lookahead `(?=\n|$)` holds exactly
when the next character is a newline or the input ends, encoded as an
alternative between a newline lookahead and "no character follows". -/
def extractErrPat : List RItem :=
  [.group 1 [.plus (.noneOf [':'])], .lit (str ":"),
   .group 2 [.plus .digit], .lit (str ":"), .group 3 [.plus .digit],
   .lit (str " - error "), .group 4 [.lit (str "TS"), .plus .digit],
   .lit (str ": "), .group 5 [.one .anyCh, .starLazy .anyCh],
   .alt [[.posAhead [.lit ['\n']]], [.negAhead [.one .anyCh]]]]

/-- Python `str.replace('\n', ' ')`. -/
def replaceNl (s : Str) : Str := s.map fun c => if c = '\n' then ' ' else c

/-- `parse_tsc_errors` from `extract_top_errors.py`: strip ANSI codes and
collect every match of the error regex. -/
def parse_tsc_errors (content : Str) : List Diag :=
  let clean := subAllT ansiPat [] content
  (findAllCaps extractErrPat clean).map fun m =>
    ⟨capGet m.2 1, digitsToNat (capGet m.2 2), digitsToNat (capGet m.2 3),
     capGet m.2 4, replaceNl (stripL (capGet m.2 5))⟩

/-- Observable outcome of running `extract_top_errors.main`. -/
structure ExtractRun where
  exitCode : Nat
  parsed : Option (List Diag)
  outputWritten : Bool
deriving Repr, DecidableEq

/-- `extract_top_errors.main`: a missing input report exits with status 1
before any parsing; an existing report is parsed, a clean report writes
the "no errors" output, and otherwise the categorized top errors are
written (the categorization itself is not consulted by any claim). -/
def extract_main (input : Option Str) : ExtractRun :=
  match input with
  | none => ⟨1, none, false⟩
  | some content =>
    let allErrors := parse_tsc_errors content
    if allErrors = [] then ⟨0, some [], true⟩
    else ⟨0, some allErrors, true⟩

/-! ### Conflict-region scanning shared by the resolver scripts -/

/-- The three conflict markers. -/
def headMark : Str := str "<<<<<<< HEAD\n"

/-- Separator marker with surrounding newlines as it appears in the regex. -/
def sepMark : Str := str "\n=======\n"

/-- End marker as it appears in the regex. -/
def endMark : Str := str "\n>>>>>>> origin/main"

/-- `re.findall(r'<<<<<<< HEAD\n(.*?)\n=======\n(.*?)\n>>>>>>> origin/main',
content, re.DOTALL)`: lazy groups stop at the first separator and first
end marker; when no end marker follows a candidate start the scan resumes
at the next start marker; matches are non-overlapping. -/
def scanRegions : Nat → Str → List (Str × Str)
  | 0, _ => []
  | fuel + 1, s =>
    match splitOnFirst headMark s with
    | none => []
    | some (_, afterStart) =>
      match splitOnFirst sepMark afterStart with
      | none => []
      | some (h, afterSep) =>
        match splitOnFirst endMark afterSep with
        | none => scanRegions fuel afterStart
        | some (m, rest) => (h, m) :: scanRegions fuel rest

/-- The full marked region text rebuilt for `re.escape`. -/
def regionText (h m : Str) : Str :=
  headMark ++ h ++ sepMark ++ m ++ endMark

/-- `\s*// auto: [^\n]*` (auto-comment cleanup). -/
def autoCleanPat : List RItem :=
  [.star .ws, .lit (str "// auto: "), .star (.noneOf ['\n'])]

/-- `\s*/\* global [^*]* \*/` (global-comment cleanup). -/
def globalCleanPat : List RItem :=
  [.star .ws, .lit (str "/* global "), .star (.noneOf ['*']),
   .lit (str " */")]

/-- Splice a chosen replacement over the escaped region text:
`re.sub(re.escape(region), replacement, content)`.  The replacement is
file text used as a template, so it is parsed with Python's template
rules and expanded against zero groups; a bad escape or a group
reference raises (`.error`), exactly as `re.sub` does. -/
def spliceRegion (h m repl content : Str) : Except Unit Str :=
  match parseTemplate repl with
  | .error _ => .error ()
  | .ok tmpl =>
    match expandT [] tmpl with
    | .error _ => .error ()
    | .ok expanded => .ok (replaceLit (regionText h m) expanded content)

/-! ### `resolve_all_conflicts.py` -/

/-- Pattern 1: import conflicts with global comments, preferring main. -/
def allPat1 : List RItem :=
  [.lit (str "<<<<<<< HEAD\n/* global"), .star (.noneOf ['*']),
   .lit (str "*/\n"), .star (.noneOf ['\n']),
   .lit (str "// auto: added missing React import"), .star (.noneOf ['\n']),
   .lit (str "\n=======\n"), .group 1 [.star (.noneOf ['\n'])],
   .lit (str "\n>>>>>>> origin/main")]

/-- Pattern 2: JSX namespace conflicts, preferring main. -/
def allPat2 : List RItem :=
  [.lit (str "<<<<<<< HEAD\n"), .star (.noneOf ['\n']), .lit (str "JSX"),
   .star (.noneOf ['\n']), .lit (str "\n=======\n"),
   .group 1 [.star (.noneOf ['\n'])], .lit (str "\n>>>>>>> origin/main")]

/-- Pattern 3: global function type conflicts, preferring main. -/
def allPat3 : List RItem :=
  [.lit (str "<<<<<<< HEAD\n"), .star (.noneOf ['\n']), .lit (str "fn"),
   .star (.noneOf ['\n']), .lit (str "\n=======\n"),
   .group 1 [.star (.noneOf ['\n'])], .lit (str "\n>>>>>>> origin/main")]

/-- The cleanup applied to a HEAD side in the pattern-4 loop of
`resolve_all_conflicts`: drop `// auto:` comments, then `/* global */`
comments. -/
def cleanHeadAll (h : Str) : Str :=
  subAllT globalCleanPat [] (subAllT autoCleanPat [] h)

/-- The choice the pattern-4 loop makes for one region: main when the
cleaned HEAD equals main up to stripping, otherwise the cleaned HEAD. -/
def chooseAll (h m : Str) : Str :=
  let cleaned := cleanHeadAll h
  if stripL cleaned = stripL m then m else cleaned

/-- The remaining-conflicts phase of `resolve_all_conflicts` (source lines
58–75): find every region once, then splice each chosen replacement over
the escaped region text in sequence. -/
def resolveRegionsPhase (content : Str) : Except Unit Str :=
  (scanRegions (content.length + 1) content).foldlM
    (fun c r => spliceRegion r.1 r.2 (chooseAll r.1 r.2) c) content

/-- Per-file body of `resolve_all_conflicts`: the three preferring-main
substitutions, then the remaining-conflicts phase; returns the final
content and whether it differs from the original (the write condition).
An exception escaping the body is the `.error` case, caught by the
caller's per-file `try`/`except`. -/
def resolve_all_one (content : Str) : Except Unit (Str × Bool) := do
  let c1 := subAllT allPat1 [.refT 1] content
  let c2 := subAllT allPat2 [.refT 1] c1
  let c3 := subAllT allPat3 [.refT 1] c2
  let c4 ← resolveRegionsPhase c3
  return (c4, c4 ≠ content)

/-- One iteration of the `resolve_all_conflicts` batch loop: the file is
processed under `try`/`except`; on an exception (or when nothing changed)
the file on disk keeps its original content; a changed file is written
and counted. -/
def resolveAllStep (acc : List Str × Nat) (content : Str) : List Str × Nat :=
  match resolve_all_one content with
  | .ok (c, true) => (acc.1 ++ [c], acc.2 + 1)
  | .ok (_, false) => (acc.1 ++ [content], acc.2)
  | .error _ => (acc.1 ++ [content], acc.2)

/-- The batch loop of `resolve_all_conflicts` over the conflicted files. -/
def resolve_all_conflicts (files : List Str) : List Str × Nat :=
  files.foldl resolveAllStep ([], 0)

/-! ### `resolve_typescript_conflicts.py` -/

/-- `[A-Za-z]` -/
def alphaCls : CharCls := .inSet [('a', 'z'), ('A', 'Z')]

/-- `[A-Za-z0-9]` -/
def alnumCls : CharCls := .inSet [('a', 'z'), ('A', 'Z'), ('0', '9')]

/-- `[^<>=]` -/
def notAngleEq : CharCls := .noneOf ['<', '>', '=']

/-- Pattern 1: state-setter types, preferring the typed HEAD. -/
def tsPat1 : List RItem :=
  [.lit (str "<<<<<<< HEAD\n"),
   .group 1 [.star notAngleEq, .lit (str "(prev:"), .star .ws,
     .one alphaCls, .star alnumCls, .lit (str ")"), .star notAngleEq],
   .lit (str "\n=======\n"),
   .group 2 [.star notAngleEq, .lit (str "(prev:"), .star .ws,
     .lit (str "any)"), .star notAngleEq],
   .lit (str "\n>>>>>>> origin/main")]

/-- Pattern 2: event-handler types, preferring the typed HEAD. -/
def tsPat2 : List RItem :=
  [.lit (str "<<<<<<< HEAD\n"),
   .group 1 [.star notAngleEq, .lit (str "(e:"), .star .ws,
     .lit (str "React."), .one alphaCls, .star alnumCls, .lit (str "Event"),
     .star (.noneOf [')']), .lit (str ")"), .star notAngleEq],
   .lit (str "\n=======\n"),
   .group 2 [.star notAngleEq, .lit (str "(e:"), .star .ws,
     .lit (str "any)"), .star notAngleEq],
   .lit (str "\n>>>>>>> origin/main")]

/-- Pattern 3: onChange handlers, preferring the typed HEAD (`.` under
`re.DOTALL`). -/
def tsPat3 : List RItem :=
  [.lit (str "<<<<<<< HEAD\n"),
   .group 1 [.star notAngleEq, .lit (str "onChange"), .star .anyCh,
     .lit (str ":"), .star .ws, .lit (str "React."), .one alphaCls,
     .star alnumCls, .lit (str "Event"), .star notAngleEq],
   .lit (str "\n=======\n"),
   .group 2 [.star notAngleEq, .lit (str "onChange"), .star .anyCh,
     .lit (str ":"), .star .ws, .lit (str "any"), .star notAngleEq],
   .lit (str "\n>>>>>>> origin/main")]

/-- Pattern 4: function parameter typing, preferring the typed HEAD. -/
def tsPat4 : List RItem :=
  [.lit (str "<<<<<<< HEAD\n"),
   .group 1 [.star notAngleEq, .lit (str "("), .star (.noneOf [')']),
     .lit (str ":"), .star .ws, .one alphaCls, .star alnumCls,
     .opt [.lit (str "[]")], .star (.noneOf [')']), .lit (str ")"),
     .star notAngleEq],
   .lit (str "\n=======\n"),
   .group 2 [.star notAngleEq, .lit (str "("), .star (.noneOf [')']),
     .lit (str ":"), .star .ws, .lit (str "any"), .star (.noneOf [')']),
     .lit (str ")"), .star notAngleEq],
   .lit (str "\n>>>>>>> origin/main")]

/-- `:\s*[A-Za-z][A-Za-z0-9]*(?:<[^>]*>)?(?:\[\])?` — the "has a type
annotation" probe for a HEAD side. -/
def typeAnnPat : List RItem :=
  [.lit (str ":"), .star .ws, .one alphaCls, .star alnumCls,
   .opt [.lit (str "<"), .star (.noneOf ['>']), .lit (str ">")],
   .opt [.lit (str "[]")]]

/-- `:\s*[A-Za-z][A-Za-z0-9]*` — the "has a type annotation" probe for a
main side. -/
def typeAnnMainPat : List RItem :=
  [.lit (str ":"), .star .ws, .one alphaCls, .star alnumCls]

/-- `re.sub(r'\s+', ' ', s.strip())` — whitespace normalization. -/
def normWs (s : Str) : Str := subAllT [.plus .ws] [.litT [' ']] (stripL s)

/-- The pattern-5 choice of `resolve_typescript_conflicts` for one
region: HEAD when it has type annotations and main has `any` or no
annotation, main when the sides agree up to stripping or whitespace
normalization, and HEAD by default. -/
def chooseTs (h m : Str) : Str :=
  let headHasTypes := (searchPos typeAnnPat h).isSome
  let mainHasAny := occursIn (str "any") m
  if headHasTypes && (mainHasAny || !(searchPos typeAnnMainPat m).isSome) then
    h
  else if stripL h = stripL m then m
  else if normWs h = normWs m then m
  else h

/-- Per-file body of `resolve_typescript_conflicts`: four typed-conflict
substitutions, then the generic pattern-5 loop over the remaining
regions; returns final content and the write condition. -/
def resolve_ts_one (content : Str) : Except Unit (Str × Bool) := do
  let c1 := subAllT tsPat1 [.refT 1] content
  let c2 := subAllT tsPat2 [.refT 1] c1
  let c3 := subAllT tsPat3 [.refT 1] c2
  let c4 := subAllT tsPat4 [.refT 1] c3
  let c5 ← (scanRegions (c4.length + 1) c4).foldlM
    (fun c r => spliceRegion r.1 r.2 (chooseTs r.1 r.2) c) c4
  return (c5, c5 ≠ content)

/-! ### `resolve_conflicts.py` -/

/-- Pattern 1 of `resolve_conflict_file`:
`<<<<<<< HEAD\n/\* global \w+ \*/\n[^\n]*\n=======\n([^\n]*)\n>>>…`. -/
def rcPat1 : List RItem :=
  [.lit (str "<<<<<<< HEAD\n/* global "), .plus .word, .lit (str " */\n"),
   .star (.noneOf ['\n']), .lit (str "\n=======\n"),
   .group 1 [.star (.noneOf ['\n'])], .lit (str "\n>>>>>>> origin/main")]

/-- Pattern 2: duplicate React import conflicts. -/
def rcPat2 : List RItem :=
  [.lit (str "<<<<<<< HEAD\n"), .star (.noneOf ['\n']),
   .lit (str "// auto: added missing React import"), .star (.noneOf ['\n']),
   .lit (str "\n=======\n"), .group 1 [.star (.noneOf ['\n'])],
   .lit (str "\n>>>>>>> origin/main")]

/-- Pattern 3: JSX namespace conflicts. -/
def rcPat3 : List RItem :=
  [.lit (str "<<<<<<< HEAD\n"), .star (.noneOf ['\n']), .lit (str "JSX"),
   .star (.noneOf ['\n']), .lit (str "\n=======\n"),
   .group 1 [.star (.noneOf ['\n'])], .lit (str "\n>>>>>>> origin/main")]

/-- Pattern 4 of `resolve_conflict_file` under `re.DOTALL`:
`<<<<<<< HEAD\n((?:(?!>>>>>>>).*\n)*?)=======\n(?:(?!>>>>>>>).*\n)*?>>>…`,
keeping the HEAD side through the cleaning function. -/
def rcPat4 : List RItem :=
  [.lit (str "<<<<<<< HEAD\n"),
   .group 1 [.starSeqLazy [.negAhead [.lit (str ">>>>>>>")], .star .anyCh,
     .lit (str "\n")]],
   .lit (str "=======\n"),
   .starSeqLazy [.negAhead [.lit (str ">>>>>>>")], .star .anyCh,
     .lit (str "\n")],
   .lit (str ">>>>>>> origin/main")]

/-- `clean_head_content`: drop auto and global comments from the captured
HEAD side, right-strip, and append a newline. -/
def cleanHeadContent (caps : Caps) : Str :=
  rstripL (subAllT globalCleanPat [] (subAllT autoCleanPat []
    (capGet caps 1))) ++ ['\n']

/-- `>>>>>>> origin/main\n?` -/
def rcEndCleanupPat : List RItem :=
  [.lit (str ">>>>>>> origin/main"), .opt [.lit ['\n']]]

/-- The pure text transformation of `resolve_conflict_file` (patterns 1–4
then the unconditional marker cleanup). -/
def resolveConflictTransform (content : Str) : Str :=
  let c1 := subAllT rcPat1 [.refT 1] content
  let c2 := subAllT rcPat2 [.refT 1] c1
  let c3 := subAllT rcPat3 [.refT 1] c2
  let c4 := subAllFn rcPat4 cleanHeadContent c3
  let c5 := subAllT [.lit (str "<<<<<<< HEAD\n")] [] c4
  let c6 := subAllT [.lit (str "=======\n")] [] c5
  subAllT rcEndCleanupPat [] c6

/-- `resolve_conflict_file`: files without a conflict marker are returned
untouched; otherwise the transformation runs and the file is written back
exactly when the text changed. -/
def resolve_conflict_file (content : Str) : Str × Bool :=
  if !occursIn (str "<<<<<<< HEAD") content then (content, false)
  else
    let c := resolveConflictTransform content
    if c ≠ content then (c, true) else (content, false)

/-! ### `fix_hooks_deps.py`: safety analysis and manual-review comments -/

/-- `[A-Z]` -/
def upperCls : CharCls := .inSet [('A', 'Z')]

/-- `re.search(r'^set[A-Z]', dep)`: anchored, so a match at position 0. -/
def volatileSetterStart (dep : Str) : Bool :=
  (reMatch [.lit (str "set"), .one upperCls] dep).isSome

/-- `re.search(r'\.', dep)`. -/
def volatileDot (dep : Str) : Bool := occursIn ['.'] dep

/-- `re.search(r'Setter$', dep)` (and the `Handler$`/`Callback$` twins). -/
def volatileSuffix (suffix : Str) (dep : Str) : Bool :=
  (searchPos [.lit suffix, .eol] dep).isSome

/-- The five `unsafe_patterns` checks of `is_safe_dependency`, in table
order. -/
def matchesVolatile (dep : Str) : Bool :=
  volatileSetterStart dep || volatileDot dep ||
  volatileSuffix (str "Setter") dep || volatileSuffix (str "Handler") dep ||
  volatileSuffix (str "Callback") dep

/-- `rf'import.*\b{re.escape(dep)}\b.*from'` — `re.escape` makes the name
literal, so the pattern is `import`, anything on the line, the name at
word boundaries, anything, `from`. -/
def importDepPat (dep : Str) : List RItem :=
  [.lit (str "import"), .star .dotNL, .wb, .lit dep, .wb, .star .dotNL,
   .lit (str "from")]

/-- The import check of `is_safe_dependency`. -/
def importSearch (dep fileContent : Str) : Bool :=
  (searchPos (importDepPat dep) fileContent).isSome

/-- `rf'^(const|let|var)\s+{re.escape(dep)}\s*='` without the anchor
(the caller decides where it may match). -/
def constDeclPat (dep : Str) : List RItem :=
  [.alt [[.lit (str "const")], [.lit (str "let")], [.lit (str "var")]],
   .plus .ws, .lit dep, .star .ws, .lit (str "=")]

/-- `re.search(const_pattern, file_content, re.MULTILINE)`. -/
def constSearchML (dep fileContent : Str) : Bool :=
  searchML (constDeclPat dep) fileContent

/-- `re.search(r'^\s*(function|const \w+\s*=|class \w+)', line)`:
anchored at the start of the single line. -/
def funcDeclAt (line : Str) : Bool :=
  (reMatch [.star .ws,
    .alt [[.lit (str "function")],
          [.lit (str "const "), .plus .word, .star .ws, .lit (str "=")],
          [.lit (str "class "), .plus .word]]] line).isSome

/-- The backwards window scan: does any of the up-to-20 preceding lines
start a function, const-assignment or class? -/
def lookbackHasFuncDecl (lines : List Str) (i : Nat) : Bool :=
  ((List.range i).filter (fun j => i - 20 ≤ j)).any
    fun j => funcDeclAt (lines.getD j [])

/-- The per-line loop of the const branch: some line matches the anchored
const pattern and its 20-line lookback finds no enclosing declaration. -/
def constLineCheck (dep : Str) (lines : List Str) : Bool :=
  lines.enum.any fun p =>
    (reMatch (constDeclPat dep) p.2).isSome && !lookbackHasFuncDecl lines p.1

/-- `is_safe_dependency` from `fix_hooks_deps.py`: volatile-looking names
are rejected first; then a name is safe when an import line mentions it,
or when a module-level `const`/`let`/`var` binds it outside the 20-line
window of a function or class header; everything else is unsafe. -/
def is_safe_dependency (dep fileContent : Str) : Bool :=
  if matchesVolatile dep then false
  else if importSearch dep fileContent then true
  else if constSearchML dep fileContent then
    constLineCheck dep (splitLinesL fileContent)
  else false

/-- One entry of the global `manual_review_items` list. -/
structure ReviewItem where
  file : Str
  line : Nat
  hookType : Str
  deps : List Str
  reason : Str
deriving Repr, DecidableEq

/-- The annotation `add_manual_review_comment` looks for on the previous
line. -/
def manualReviewMark : Str :=
  str "eslint-disable-next-line react-hooks/exhaustive-deps"

/-- The comment line it inserts. -/
def reviewComment (deps : List Str) : Str :=
  str "    // eslint-disable-next-line react-hooks/exhaustive-deps -- auto: manual review required; refs: " ++
    joinCommaSpace deps ++ ['\n']

/-- `add_manual_review_comment` on a file given as its line list: reject
out-of-range line numbers; return `False` untouched when the line before
the hook already carries the annotation; otherwise insert the comment,
record a `ReviewItem`, and return `True`. -/
def add_manual_review_comment (file : Str) (lines : List Str)
    (lineNumber : Nat) (deps : List Str) (hookType : Str)
    (reviews : List ReviewItem) : Bool × List Str × List ReviewItem :=
  if lineNumber = 0 || lineNumber > lines.length then (false, lines, reviews)
  else
    let insertLine := lineNumber - 1
    if insertLine > 0 &&
        occursIn manualReviewMark (stripL (lines.getD (insertLine - 1) []))
    then (false, lines, reviews)
    else
      (true, insertAtPy insertLine (reviewComment deps) lines,
       reviews ++ [⟨file, lineNumber, hookType, deps,
         str "Contains potentially unsafe dependencies"⟩])

/-! ## Theorems -/

/-- Filing one diagnostic grows exactly one bucket by one. -/
theorem sumBuckets_insert (b : Buckets) (e : Diag) :
    sumBuckets (insertBucket b e) = sumBuckets b + 1 := by
  unfold insertBucket
  cases classifyOne e <;> simp [sumBuckets] <;> omega

/-- Folding `insertBucket` adds the batch size to the bucket total. -/
theorem sumBuckets_fold (errors : List Diag) (b : Buckets) :
    sumBuckets (errors.foldl insertBucket b) = sumBuckets b + errors.length := by
  induction errors generalizing b with
  | nil => simp
  | cons e t ih =>
    simp only [List.foldl_cons, ih, sumBuckets_insert, List.length_cons]
    omega

/-- C2: classification is total and exclusive — `classify_errors` files
every diagnostic into exactly one bucket of its fixed table (the
`if`/`elif` chain ends in the `other` bucket), so the per-category bucket
sizes sum to the batch size for every batch. -/
theorem classification_total (errors : List Diag) :
    sumBuckets (classify_errors errors) = errors.length := by
  unfold classify_errors
  rw [sumBuckets_fold]
  simp [sumBuckets, emptyBuckets]

/-- C3: the safety analysis of `fix_hooks_deps.is_safe_dependency` is
conservative: a candidate that the import-statement search does not find
and that the module-level-constant branch does not accept is always
classified unsafe, and a candidate matching one of the known-volatile
name patterns (`^set[A-Z]`, a `.`, or a `Setter`/`Handler`/`Callback`
suffix) is classified unsafe regardless of the file content. -/
theorem safety_conservative (dep content : Str) :
    (importSearch dep content = false →
      (constSearchML dep content && constLineCheck dep (splitLinesL content))
        = false →
      is_safe_dependency dep content = false) ∧
    (matchesVolatile dep = true → is_safe_dependency dep content = false) := by
  constructor
  · intro h1 h2
    unfold is_safe_dependency
    split_ifs with hv hi hc
    · rfl
    · rw [hi] at h1; exact absurd h1 (by simp)
    · rw [hc] at h2; simpa using h2
    · rfl
  · intro hv
    unfold is_safe_dependency
    simp [hv]

/-- Witness for C3: `setCount` is classified unsafe in a file that neither
imports it nor binds it at module level, and it matches the volatile
state-setter pattern. -/
theorem safety_conservative_witness :
    is_safe_dependency (str "setCount") (str "const x = 1;\n") = false ∧
      matchesVolatile (str "setCount") = true :=
  ⟨(safety_conservative (str "setCount") (str "const x = 1;\n")).1
      (by decide) (by decide),
   by decide⟩

/-- C6 counterexample: in `classify_ts_errors.py` a missing input report
is not fatal — `parse_tsc_output` prints a message and returns the empty
collection, `main` goes on to classify it and write both report files,
and the process exits with status `0`, contradicting the claimed
`NotFoundError` / non-zero exit / no further processing. -/
theorem missing_report_not_fatal_cx :
    (classify_main none).exitCode = 0 ∧
      (classify_main none).reportWritten = true ∧
      classify_main none = ⟨0, emptyBuckets, true⟩ := by
  refine ⟨rfl, rfl, rfl⟩

/-- C6 amended: `extract_top_errors.main` exits with status 1 on a missing
report and performs no parsing, while `classify_ts_errors.main` treats a
missing report like an empty one (exit 0, empty buckets, reports
written); an existing report with no recognizable diagnostics yields the
empty sequence and a zero exit in both scripts. -/
theorem missing_report_semantics :
    extract_main none = ⟨1, none, false⟩ ∧
      classify_main none = ⟨0, emptyBuckets, true⟩ ∧
      extract_main (some (str "All clean, no diagnostics.\n")) =
        ⟨0, some [], true⟩ ∧
      classify_main (some (str "All clean, no diagnostics.\n")) =
        ⟨0, emptyBuckets, true⟩ := by
  refine ⟨rfl, rfl, by decide, by decide⟩

/-- C9: the no-op frame property.  `resolve_conflict_file` writes only
when its transformation changed the text and returns the file unchanged
otherwise, and `process_file` writes only when its counting passes
changed the text, reporting zero changes and leaving the content
byte-for-byte intact when no pattern applied. -/
theorem noop_frame (content : Str) :
    (resolveConflictTransform content = content →
      resolve_conflict_file content = (content, false)) ∧
    ((resolve_conflict_file content).2 = false →
      (resolve_conflict_file content).1 = content) ∧
    ((reduceAnyPasses content).1 = content →
      process_file content = ⟨content, false, 0⟩) ∧
    ((process_file content).wrote = false →
      process_file content = ⟨content, false, 0⟩) := by
  refine ⟨?_, ?_, ?_, ?_⟩
  · intro h
    unfold resolve_conflict_file
    by_cases hm : occursIn (str "<<<<<<< HEAD") content
    · simp [hm, h]
    · simp [hm]
  · intro h
    unfold resolve_conflict_file at h ⊢
    by_cases hm : occursIn (str "<<<<<<< HEAD") content
    · by_cases hc : resolveConflictTransform content = content
      · simp [hm, hc]
      · simp [hm, hc] at h
    · simp [hm]
  · intro h
    unfold process_file
    simp [h]
  · intro h
    unfold process_file at h ⊢
    by_cases hc : (reduceAnyPasses content).1 = content
    · simp [hc]
    · simp [hc] at h

set_option maxRecDepth 1000000 in
/-- Witness for C9: on a file none of the rewrite or conflict patterns
match, both passes leave the content unchanged and report no change. -/
theorem noop_frame_witness :
    resolve_conflict_file (str "hello world\n") = (str "hello world\n", false) ∧
      process_file (str "hello world\n") = ⟨str "hello world\n", false, 0⟩ := by
  have h := noop_frame (str "hello world\n")
  exact ⟨h.1 (by decide), h.2.2.1 (by decide)⟩

/-- C10: `add_manual_review_comment` is idempotent at the file interface —
when the line immediately preceding the flagged hook already carries the
`eslint-disable-next-line react-hooks/exhaustive-deps` annotation, it
returns `False` and leaves both the file lines and the manual-review
ledger untouched. -/
theorem review_comment_idempotent (file : Str) (lines : List Str)
    (lineNumber : Nat) (deps : List Str) (hookType : Str)
    (reviews : List ReviewItem)
    (h1 : 2 ≤ lineNumber) (h2 : lineNumber ≤ lines.length)
    (h3 : occursIn manualReviewMark
      (stripL (lines.getD (lineNumber - 2) [])) = true) :
    add_manual_review_comment file lines lineNumber deps hookType reviews =
      (false, lines, reviews) := by
  unfold add_manual_review_comment
  rw [if_neg (by
    simp only [Bool.or_eq_true, decide_eq_true_eq, not_or, Nat.not_lt]
    exact ⟨by omega, h2⟩)]
  rw [if_pos (by
    have he : lineNumber - 1 - 1 = lineNumber - 2 := by omega
    simp only [Bool.and_eq_true, decide_eq_true_eq, he, h3]
    exact ⟨by omega, trivial⟩)]

/-- Witness for C10: a two-line file whose first line already carries the
annotation; flagging line 2 again changes nothing. -/
theorem review_comment_idempotent_witness :
    add_manual_review_comment (str "a.tsx")
      [str "  // eslint-disable-next-line react-hooks/exhaustive-deps -- auto: manual review required; refs: x\n",
       str "  useEffect(() => {}, []);\n"]
      2 [str "x"] (str "useEffect") [] =
      (false,
       [str "  // eslint-disable-next-line react-hooks/exhaustive-deps -- auto: manual review required; refs: x\n",
        str "  useEffect(() => {}, []);\n"], []) :=
  review_comment_idempotent (str "a.tsx") _ 2 _ (str "useEffect") []
    (by decide) (by decide) (by decide)

/-- A newline-free line splits to itself. -/
theorem splitLines_single (l : Str) (h : '\n' ∉ l) : splitLinesL l = [l] := by
  induction l with
  | nil => rfl
  | cons c t ih =>
    have hc : c ≠ '\n' := fun hc => h (hc ▸ List.mem_cons_self c t)
    have ht : '\n' ∉ t := fun hm => h (List.mem_cons_of_mem c hm)
    unfold splitLinesL
    rw [if_neg hc, ih ht]

/-- Splitting after a newline-free first line peels it off. -/
theorem splitLines_append (l rest : Str) (h : '\n' ∉ l) :
    splitLinesL (l ++ '\n' :: rest) = l :: splitLinesL rest := by
  induction l with
  | nil => simp [splitLinesL]
  | cons c t ih =>
    have hc : c ≠ '\n' := fun hc => h (hc ▸ List.mem_cons_self c t)
    have ht : '\n' ∉ t := fun hm => h (List.mem_cons_of_mem c hm)
    have hrec := ih ht
    have e2 : splitLinesL (c :: (t ++ '\n' :: rest)) =
        match splitLinesL (t ++ '\n' :: rest) with
        | [] => [[c]]
        | l :: ls => (c :: l) :: ls := by
      conv_lhs => unfold splitLinesL
      rw [if_neg hc]
    simp only [List.cons_append]
    rw [e2, hrec]

/-- Joining newline-free lines and splitting again is the identity. -/
theorem splitLines_joinLines (lines : List Str) (h1 : lines ≠ [])
    (h2 : ∀ l ∈ lines, '\n' ∉ l) :
    splitLinesL (joinLinesL lines) = lines := by
  induction lines with
  | nil => exact absurd rfl h1
  | cons l ls ih =>
    cases ls with
    | nil =>
      exact splitLines_single l (h2 l (List.mem_cons_self l []))
    | cons l2 ls2 =>
      have hjoin : joinLinesL (l :: l2 :: ls2) =
          l ++ '\n' :: joinLinesL (l2 :: ls2) := rfl
      rw [hjoin, splitLines_append l _ (h2 l (List.mem_cons_self l _)),
        ih (by simp) (fun x hx => h2 x (List.mem_cons_of_mem l hx))]

/-- The length of a `filterMap` counts the elements the function keeps. -/
theorem length_filterMap_countP {α β : Type} (f : α → Option β)
    (l : List α) :
    (l.filterMap f).length = l.countP (fun x => (f x).isSome) := by
  induction l with
  | nil => rfl
  | cons a t ih =>
    cases hfa : f a with
    | none => simp [List.filterMap_cons, List.countP_cons, hfa, ih]
    | some b => simp [List.filterMap_cons, List.countP_cons, hfa, ih]

/-- C7: parser round trip — on text assembled from newline-free lines,
`parse_tsc_output` yields exactly one diagnostic per line whose stripped
form matches the header grammar; every other line is silently dropped,
contributing neither a record nor an error. -/
theorem parser_round_trip (lines : List Str) (h1 : lines ≠ [])
    (h2 : ∀ l ∈ lines, '\n' ∉ l) :
    (parse_tsc_output (some (joinLinesL lines))).length =
      lines.countP (fun l => (parseLine l).isSome) := by
  show ((splitLinesL (joinLinesL lines)).filterMap parseLine).length = _
  rw [splitLines_joinLines lines h1 h2, length_filterMap_countP]

set_option maxRecDepth 1000000 in
/-- Witness for C7: two well-formed diagnostic headers interleaved with
two malformed lines parse to exactly two records. -/
theorem parser_round_trip_witness :
    (parse_tsc_output (some (joinLinesL
      [str "a.ts(10,5): error TS7006: Parameter 'x' implicitly has an 'any' type.",
       str "garbage line with no header",
       str "src/b.tsx(3,14): error TS2304: Cannot find name 'foo'.",
       str "  at somewhere deep in a stack trace"]))).length = 2 :=
  (parser_round_trip
    [str "a.ts(10,5): error TS7006: Parameter 'x' implicitly has an 'any' type.",
     str "garbage line with no header",
     str "src/b.tsx(3,14): error TS2304: Cannot find name 'foo'.",
     str "  at somewhere deep in a stack trace"]
    (by decide) (by decide)).trans (by decide)

/-- Decidable equality for `Except` results (for concrete evaluations). -/
instance exceptDecEq {ε α : Type} [DecidableEq ε] [DecidableEq α] :
    DecidableEq (Except ε α)
  | .error e, .error f =>
    match decEq e f with
    | isTrue h => isTrue (by rw [h])
    | isFalse h => isFalse fun hh => h (Except.error.inj hh)
  | .error _, .ok _ => isFalse fun hh => Except.noConfusion hh
  | .ok _, .error _ => isFalse fun hh => Except.noConfusion hh
  | .ok a, .ok b =>
    match decEq a b with
    | isTrue h => isTrue (by rw [h])
    | isFalse h => isFalse fun hh => h (Except.ok.inj hh)

/-- The input on which one rewrite pass is not a fixpoint: `re.sub`
replaces `, b: any,` and thereby consumes the comma that the overlapping
occurrence `, c: any,` needs, so `c`'s annotation survives the first pass
and is rewritten by the second. -/
def c1Input : Str := str "(a: any, b: any, c: any, d: any)"

set_option maxRecDepth 4000000 in
/-- C1 counterexample: applying the rule set of `reduce-any-types.py`
twice does not equal applying it once — the first pass leaves
`c: any` in place, the second pass rewrites it. -/
theorem rewrite_not_idempotent_cx :
    applyReduceAny (applyReduceAny c1Input) ≠ applyReduceAny c1Input := by
  decide

set_option maxRecDepth 4000000 in
/-- C1 amended: no rule's replacement string contains the trigger token
`any`, so a replacement never directly reintroduces a trigger; the rule
set is nevertheless not idempotent, because non-overlapping substitution
can skip an occurrence that shares its delimiter with a replaced one —
on the counterexample input the rewrite converges only at the second
application. -/
theorem rewrite_idempotence_amended :
    ((TYPE_REPLACEMENTS ++ additional_replacements).all
      fun r => !occursIn (str "any") r.rawRepl) = true ∧
    applyReduceAny (applyReduceAny (applyReduceAny c1Input)) =
      applyReduceAny (applyReduceAny c1Input) := by
  exact ⟨by decide, by decide⟩

/-- An ambiguous conflict region: no type annotation on either side and
textually different sides. -/
def c5Head : Str := str "foo()"

/-- The main side of the ambiguous region. -/
def c5Main : Str := str "bar()"

set_option maxRecDepth 1000000 in
/-- C5: the code evaluated at a region where neither side-selection
condition disambiguates — HEAD has no type annotation, the sides differ
after stripping and after whitespace normalization — yet
`resolve_typescript_conflicts` splices the HEAD side, removes every
marker, and records nothing for manual review (the script keeps no
review list at all); `resolve_conflict_file` likewise splices the HEAD
side and strips all markers.  The claim says such a region keeps its
markers and yields a `ManualReviewItem`. -/
theorem ambiguous_region_spliced :
    resolve_ts_one (regionText c5Head c5Main) = .ok (str "foo()", true) ∧
      resolve_conflict_file (regionText c5Head c5Main) =
        (str "foo()\n", true) ∧
      (searchPos typeAnnPat c5Head).isSome = false ∧
      stripL c5Head ≠ stripL c5Main ∧
      normWs c5Head ≠ normWs c5Main ∧
      occursIn (str "<<<<<<<") (str "foo()") = false := by
  refine ⟨by decide, by decide, by decide, by decide, by decide, by decide⟩

/-- A file whose first region's chosen replacement carries the invalid
template escape `\g`, raising `re.error` inside the pattern-4 loop, and
whose second region is resolvable. -/
def c8BadFile : Str :=
  regionText (str "alpha() \\gthing // auto: x") (str "other1()") ++
    str "\n" ++ regionText (str "beta() // auto: y") (str "beta()")

/-- A file holding only the resolvable second region. -/
def c8GoodFile : Str := regionText (str "beta() // auto: y") (str "beta()")

set_option maxRecDepth 1000000 in
/-- C8 counterexample: when splicing the first region of `c8BadFile`
raises, the engine does not continue with the remaining work on that
file — the whole file is skipped (its second region, identical to
`c8GoodFile`'s and resolvable on its own, keeps its conflict markers) —
while the batch loop does continue with the next file. -/
theorem rule_failure_cx :
    resolve_all_one c8BadFile = .error () ∧
      resolve_all_conflicts [c8BadFile, c8GoodFile] =
        ([c8BadFile, str "beta()"], 1) ∧
      resolve_all_one c8GoodFile = .ok (str "beta()", true) ∧
      occursIn headMark c8BadFile = true := by
  refine ⟨by decide, by decide, by decide, by decide⟩

/-- The per-file outcome of the batch loop: the processed content when
the body succeeded with a change, the original content otherwise. -/
def fileOutcome (f : Str) : Str :=
  match resolve_all_one f with
  | .ok (c, true) => c
  | _ => f

/-- Whether the batch loop counts a file as resolved. -/
def fileResolved (f : Str) : Bool :=
  match resolve_all_one f with
  | .ok (_, true) => true
  | _ => false

/-- The fold of the batch loop, started anywhere, appends per-file
outcomes that depend only on each file's own content. -/
theorem resolveAll_fold (files : List Str) (acc : List Str × Nat) :
    files.foldl resolveAllStep acc =
      (acc.1 ++ files.map fileOutcome,
       acc.2 + (files.filter fileResolved).length) := by
  induction files generalizing acc with
  | nil => simp
  | cons f t ih =>
    rw [List.foldl_cons, ih]
    unfold resolveAllStep fileOutcome fileResolved
    match hres : resolve_all_one f with
    | .ok (c, true) => simp [List.filter_cons, hres]; omega
    | .ok (c, false) => simp [List.filter_cons, hres]
    | .error e => simp [List.filter_cons, hres]

/-- C8 amended: failure containment in `resolve_all_conflicts` is per
file, not per rule: each file's outcome depends only on its own content —
a file whose processing raises is left exactly as it was (no partial
splice, its remaining regions untouched) and the remaining files are
still processed and counted independently. -/
theorem rule_failure_containment (files : List Str) :
    resolve_all_conflicts files =
      (files.map fileOutcome, (files.filter fileResolved).length) := by
  unfold resolve_all_conflicts
  rw [resolveAll_fold]
  simp

/-! ### Exact-occurrence lemmas for literal replacement and region
scanning, used to settle the conflict-resolution soundness claim. -/

/-- `startsWithL` decides list-prefix. -/
theorem startsWithL_iff (x : Str) : ∀ s : Str, startsWithL x s = true ↔ x <+: s := by
  induction x with
  | nil => intro s; simp [startsWithL, List.nil_prefix]
  | cons a l ih =>
    intro s
    cases s with
    | nil => simp [startsWithL, List.prefix_nil]
    | cons b t =>
      simp [startsWithL, List.cons_prefix_cons, ih]

/-- The empty needle occurs everywhere. -/
theorem occursIn_nil (s : Str) : occursIn [] s = true := by
  cases s <;> simp [occursIn, startsWithL]

/-- A needle that occurs nowhere is nonempty. -/
theorem ne_nil_of_no_occurrence {x s : Str} (h : occursIn x s = false) :
    x ≠ [] := by
  intro he
  rw [he, occursIn_nil] at h
  cases h

/-- A prefix of the text is an occurrence. -/
theorem occursIn_of_prefix {x s : Str} (h : x <+: s) : occursIn x s = true := by
  cases s with
  | nil =>
    have hx : x = [] := List.prefix_nil.mp h
    rw [hx, occursIn_nil]
  | cons c t =>
    simp [occursIn, (startsWithL_iff x (c :: t)).mpr h]

/-- Splitting an occurrence test at the head character. -/
theorem occursIn_cons (x : Str) (c : Char) (t : Str) :
    occursIn x (c :: t) = (startsWithL x (c :: t) || occursIn x t) := rfl

/-- If the needle does not occur in `(c :: pre) ++ x.take (|x| - 1)`,
then it cannot start at the very beginning of `(c :: pre) ++ x ++ rest`:
such a start would lie entirely inside the shorter list. -/
theorem no_start_of_no_occurrence (x pre rest : Str) (c : Char)
    (h : occursIn x ((c :: pre) ++ x.take (x.length - 1)) = false) :
    startsWithL x ((c :: pre) ++ x ++ rest) = false := by
  cases hst : startsWithL x ((c :: pre) ++ x ++ rest) with
  | false => rfl
  | true =>
    exfalso
    have hp : x <+: (c :: pre) ++ x ++ rest := (startsWithL_iff x _).mp hst
    have hpp : ((c :: pre) ++ x.take (x.length - 1)) <+:
        (c :: pre) ++ x ++ rest := by
      have ht : x.take (x.length - 1) <+: x ++ rest :=
        (List.take_prefix _ x).trans (List.prefix_append x rest)
      obtain ⟨w, hw⟩ := ht
      exact ⟨w, by rw [List.append_assoc, hw, List.append_assoc]⟩
    have hlen : x.length ≤ ((c :: pre) ++ x.take (x.length - 1)).length := by
      simp only [List.length_append, List.length_cons, List.length_take]
      omega
    have hx : x <+: (c :: pre) ++ x.take (x.length - 1) :=
      List.prefix_of_prefix_length_le hp hpp hlen
    have hocc := occursIn_of_prefix hx
    rw [h] at hocc
    cases hocc

/-- Replacing in text with no occurrence is the identity. -/
theorem replaceAllLit_no_occurrence (x r : Str) :
    ∀ (fuel : Nat) (s : Str), occursIn x s = false →
      replaceAllLit x r fuel s = s := by
  intro fuel
  induction fuel with
  | zero => intro s _; rfl
  | succ f ih =>
    intro s h
    cases s with
    | nil => rfl
    | cons c t =>
      rw [occursIn_cons] at h
      have hsw : startsWithL x (c :: t) = false := by
        cases hb : startsWithL x (c :: t)
        · rfl
        · rw [hb] at h; simp at h
      have ht : occursIn x t = false := by
        cases hb : occursIn x t
        · rfl
        · rw [hb] at h; simp at h
      unfold replaceAllLit
      rw [if_neg (by simp [hsw]), ih t ht]

/-- Replacing the single exact occurrence `pre ++ x ++ suf` yields
`pre ++ r ++ suf` when `x` occurs neither earlier (not even overlapping
into its own occurrence) nor in the tail. -/
theorem replaceAllLit_exact (x r : Str) :
    ∀ (pre : Str) (fuel : Nat) (suf : Str),
      (pre ++ x ++ suf).length < fuel →
      occursIn x (pre ++ x.take (x.length - 1)) = false →
      occursIn x suf = false →
      replaceAllLit x r fuel (pre ++ x ++ suf) = pre ++ r ++ suf := by
  intro pre
  induction pre with
  | nil =>
    intro fuel suf hf h1 h2
    have hx : x ≠ [] := ne_nil_of_no_occurrence (s := x.take (x.length - 1))
      (by simpa using h1)
    cases fuel with
    | zero => omega
    | succ f =>
      cases x with
      | nil => exact absurd rfl hx
      | cons cx xt =>
        simp only [List.nil_append]
        rw [show (cx :: xt) ++ suf = cx :: (xt ++ suf) from rfl]
        unfold replaceAllLit
        rw [if_pos (by
          simp only [Bool.and_eq_true, decide_eq_true_eq]
          refine ⟨?_, by simp⟩
          rw [show cx :: (xt ++ suf) = (cx :: xt) ++ suf from rfl]
          exact (startsWithL_iff _ _).mpr (List.prefix_append _ _))]
        have hdrop : (cx :: (xt ++ suf)).drop (cx :: xt).length = suf := by
          rw [show cx :: (xt ++ suf) = (cx :: xt) ++ suf from rfl,
            List.drop_append_of_le_length (Nat.le_refl _)]
          simp
        rw [hdrop, replaceAllLit_no_occurrence _ _ _ _ h2]
  | cons p pre' ih =>
    intro fuel suf hf h1 h2
    cases fuel with
    | zero => omega
    | succ f =>
      have hns : startsWithL x ((p :: pre') ++ x ++ suf) = false :=
        no_start_of_no_occurrence x pre' suf p h1
      have h1' : occursIn x (pre' ++ x.take (x.length - 1)) = false := by
        rw [show (p :: pre') ++ x.take (x.length - 1) =
          p :: (pre' ++ x.take (x.length - 1)) from rfl, occursIn_cons] at h1
        cases hb : occursIn x (pre' ++ x.take (x.length - 1))
        · rfl
        · rw [hb] at h1; simp at h1
      have hns' : startsWithL x (p :: (pre' ++ (x ++ suf))) = false := by
        simpa [List.append_assoc] using hns
      rw [show (p :: pre') ++ x ++ suf = p :: (pre' ++ (x ++ suf)) by simp]
      unfold replaceAllLit
      rw [if_neg (by simp [hns'])]
      have hlt : (pre' ++ x ++ suf).length < f := by
        simp only [List.cons_append, List.length_cons] at hf
        omega
      have hrec := ih f suf hlt h1' h2
      rw [show pre' ++ (x ++ suf) = pre' ++ x ++ suf by simp, hrec]
      rfl

/-- `replaceLit` at the single exact occurrence. -/
theorem replaceLit_exact (x r pre suf : Str)
    (h1 : occursIn x (pre ++ x.take (x.length - 1)) = false)
    (h2 : occursIn x suf = false) :
    replaceLit x r (pre ++ x ++ suf) = pre ++ r ++ suf :=
  replaceAllLit_exact x r pre ((pre ++ x ++ suf).length + 1) suf
    (Nat.lt_succ_self _) h1 h2

/-- A separator that occurs nowhere has no split. -/
theorem splitOnFirst_none (sep : Str) (hsep : sep ≠ []) :
    ∀ s : Str, occursIn sep s = false → splitOnFirst sep s = none := by
  intro s
  induction s with
  | nil =>
    intro _
    cases sep with
    | nil => exact absurd rfl hsep
    | cons a l => simp [splitOnFirst, startsWithL]
  | cons c t ih =>
    intro h
    rw [occursIn_cons] at h
    have hsw : startsWithL sep (c :: t) = false := by
      cases hb : startsWithL sep (c :: t)
      · rfl
      · rw [hb] at h; simp at h
    have ht : occursIn sep t = false := by
      cases hb : occursIn sep t
      · rfl
      · rw [hb] at h; simp at h
    unfold splitOnFirst
    rw [if_neg (by simp [hsw]), ih ht]

/-- Splitting at the first, exactly placed separator occurrence. -/
theorem splitOnFirst_exact (sep : Str) :
    ∀ (pre rest : Str),
      occursIn sep (pre ++ sep.take (sep.length - 1)) = false →
      splitOnFirst sep (pre ++ (sep ++ rest)) = some (pre, rest) := by
  intro pre
  induction pre with
  | nil =>
    intro rest h1
    have hsep : sep ≠ [] := ne_nil_of_no_occurrence
      (s := sep.take (sep.length - 1)) (by simpa using h1)
    cases sep with
    | nil => exact absurd rfl hsep
    | cons cs st =>
      simp only [List.nil_append]
      rw [show (cs :: st) ++ rest = cs :: (st ++ rest) from rfl]
      unfold splitOnFirst
      rw [if_pos (by
        rw [show cs :: (st ++ rest) = (cs :: st) ++ rest from rfl]
        exact (startsWithL_iff _ _).mpr (List.prefix_append _ _))]
      have hdrop : (cs :: (st ++ rest)).drop (cs :: st).length = rest := by
        rw [show cs :: (st ++ rest) = (cs :: st) ++ rest from rfl,
          List.drop_append_of_le_length (Nat.le_refl _)]
        simp
      rw [hdrop]
  | cons p pre' ih =>
    intro rest h1
    have hns : startsWithL sep ((p :: pre') ++ sep ++ rest) = false :=
      no_start_of_no_occurrence sep pre' rest p h1
    have h1' : occursIn sep (pre' ++ sep.take (sep.length - 1)) = false := by
      rw [show (p :: pre') ++ sep.take (sep.length - 1) =
        p :: (pre' ++ sep.take (sep.length - 1)) from rfl, occursIn_cons] at h1
      cases hb : occursIn sep (pre' ++ sep.take (sep.length - 1))
      · rfl
      · rw [hb] at h1; simp at h1
    have hns' : startsWithL sep (p :: (pre' ++ (sep ++ rest))) = false := by
      simpa [List.append_assoc] using hns
    rw [show (p :: pre') ++ (sep ++ rest) = p :: (pre' ++ (sep ++ rest))
      from rfl]
    unfold splitOnFirst
    rw [if_neg (by simp [hns'])]
    rw [ih rest h1']

/-- A text with no start marker has no regions. -/
theorem scanRegions_noMark (fuel : Nat) (s : Str)
    (h : occursIn headMark s = false) : scanRegions fuel s = [] := by
  cases fuel with
  | zero => rfl
  | succ f =>
    unfold scanRegions
    rw [splitOnFirst_none headMark (by decide) s h]

/-- The scan of a text holding exactly one cleanly delimited region
returns that region alone. -/
theorem scanRegions_single (h m pre suf : Str) (fuel : Nat)
    (hfuel : 1 ≤ fuel)
    (h1 : occursIn headMark (pre ++ headMark.take (headMark.length - 1))
      = false)
    (h2 : occursIn sepMark (h ++ sepMark.take (sepMark.length - 1)) = false)
    (h3 : occursIn endMark (m ++ endMark.take (endMark.length - 1)) = false)
    (h4 : occursIn headMark suf = false) :
    scanRegions fuel (pre ++ regionText h m ++ suf) = [(h, m)] := by
  cases fuel with
  | zero => omega
  | succ f =>
    have e : pre ++ regionText h m ++ suf =
        pre ++ (headMark ++ (h ++ (sepMark ++ (m ++ (endMark ++ suf))))) := by
      simp [regionText, List.append_assoc]
    unfold scanRegions
    rw [e]
    simp only [splitOnFirst_exact headMark pre _ h1,
      splitOnFirst_exact sepMark h _ h2, splitOnFirst_exact endMark m _ h3,
      scanRegions_noMark f suf h4]

/-- A backslash-free replacement string parses to its own literal
template. -/
theorem parseTemplateF_literal :
    ∀ (fuel : Nat) (s : Str), s.length < fuel → '\\' ∉ s →
      parseTemplateF fuel s = .ok (s.map fun c => .litT [c]) := by
  intro fuel
  induction fuel with
  | zero => intro s h _; omega
  | succ f ih =>
    intro s hl hb
    cases s with
    | nil => rfl
    | cons c t =>
      have hc : c ≠ '\\' := fun hcc => hb (hcc ▸ List.mem_cons_self c t)
      have ht : '\\' ∉ t := fun hm => hb (List.mem_cons_of_mem c hm)
      unfold parseTemplateF
      rw [if_neg hc, ih t (by simp only [List.length_cons] at hl; omega) ht]
      rfl

/-- A backslash-free replacement string parses to its literal template. -/
theorem parseTemplate_literal (s : Str) (h : '\\' ∉ s) :
    parseTemplate s = .ok (s.map fun c => .litT [c]) :=
  parseTemplateF_literal (s.length + 1) s (Nat.lt_succ_self _) h

/-- Expanding a literal template gives back the text. -/
theorem expandT_literal (caps : Caps) :
    ∀ s : Str, expandT caps (s.map fun c => .litT [c]) = .ok s := by
  intro s
  induction s with
  | nil => rfl
  | cons c t ih =>
    show expandT caps (.litT [c] :: t.map fun c => .litT [c]) = .ok (c :: t)
    unfold expandT
    rw [ih]
    rfl

/-- Splicing with a backslash-free replacement reduces to literal
replacement of the region text. -/
theorem spliceRegion_literal (h m content : Str) (hb : '\\' ∉ m) :
    spliceRegion h m m content =
      .ok (replaceLit (regionText h m) m content) := by
  unfold spliceRegion
  simp only [parseTemplate_literal m hb, expandT_literal]

/-- When the cleaned HEAD side equals the main side, the pattern-4 loop
chooses the main side. -/
theorem chooseAll_of_cleaned_eq (h m : Str) (heq : cleanHeadAll h = m) :
    chooseAll h m = m := by
  unfold chooseAll
  rw [heq, if_pos rfl]

/-- C4 amended: conflict-resolution soundness holds for the
remaining-conflicts phase of `resolve_all_conflicts` provided the shared
text is backslash-free — for a file holding one cleanly delimited region
whose HEAD side, after stripping the auto-generated comment markers,
equals the main side, the phase replaces the whole marked region by that
shared text.  (When the shared text contains backslashes, `re.sub`
re-processes them as template escapes, so the spliced text can differ
from the shared text or the call can raise — the counterexample.) -/
theorem conflict_soundness_amended (h m pre suf : Str)
    (heq : cleanHeadAll h = m)
    (hb : '\\' ∉ m)
    (h1 : occursIn headMark (pre ++ headMark.take (headMark.length - 1))
      = false)
    (h2 : occursIn sepMark (h ++ sepMark.take (sepMark.length - 1)) = false)
    (h3 : occursIn endMark (m ++ endMark.take (endMark.length - 1)) = false)
    (h4 : occursIn headMark suf = false)
    (h5 : occursIn (regionText h m)
      (pre ++ (regionText h m).take ((regionText h m).length - 1)) = false)
    (h6 : occursIn (regionText h m) suf = false) :
    resolveRegionsPhase (pre ++ regionText h m ++ suf) =
      .ok (pre ++ m ++ suf) := by
  unfold resolveRegionsPhase
  rw [scanRegions_single h m pre suf _ (by omega) h1 h2 h3 h4]
  simp only [List.foldlM_cons, List.foldlM_nil]
  rw [chooseAll_of_cleaned_eq h m heq, spliceRegion_literal h m _ hb,
    replaceLit_exact (regionText h m) m pre suf h5 h6]
  rfl

set_option maxRecDepth 1000000 in
/-- Witness for the amended C4: a concrete file around one region whose
HEAD carries an auto-comment and whose sides otherwise agree resolves to
the shared main text. -/
theorem conflict_soundness_amended_witness :
    resolveRegionsPhase (str "before\n" ++
        regionText (str "const a = 1; // auto: added") (str "const a = 1;") ++
        str "\nafter\n") =
      .ok (str "before\n" ++ str "const a = 1;" ++ str "\nafter\n") :=
  conflict_soundness_amended (str "const a = 1; // auto: added")
    (str "const a = 1;") (str "before\n") (str "\nafter\n")
    (by decide) (by decide) (by decide) (by decide) (by decide) (by decide)
    (by decide) (by decide)

/-- The HEAD side of the counterexample region: the literal two-character
sequence backslash–`t` inside a string, plus an auto-comment. -/
def c4Head : Str := str "const s = \"x\\tb\"; // auto: cleanup"

/-- The main side: the same statement without the comment. -/
def c4Main : Str := str "const s = \"x\\tb\";"

set_option maxRecDepth 1000000 in
/-- C4 counterexample: the region's HEAD side equals its main side after
stripping the auto-comment, yet `resolve_all_conflicts` does not splice
in that shared text — `re.sub` treats the chosen replacement as a
template and turns the literal `\t` into a tab character. -/
theorem conflict_soundness_cx :
    cleanHeadAll c4Head = c4Main ∧
      resolve_all_one (regionText c4Head c4Main) =
        .ok (str "const s = \"x\tb\";", true) ∧
      str "const s = \"x\tb\";" ≠ c4Main := by
  refine ⟨by decide, by decide, by decide⟩

end Relife
